import Mathlib

/-!
Verification of the SpamGuard scoring and classification engine.

This file is a shallow embedding of the TypeScript sources of the
SpamGuard repository (engine.ts, the six analyzers, and the static data
tables they consume), together with theorems that check the natural
language specification of the system against that code.

Modelling conventions:
* JavaScript strings are modelled as lists of characters (Str below).
* JavaScript numbers are modelled as exact rationals.
* Case folding is modelled on the ASCII fragment (Char.toLower), which
  covers every string the theorems evaluate.
* External data files that are not part of the sources (the language
  datasets such as en.json and spam-words.ts) are passed in as explicit
  parameters, so theorems quantify over them.
* Regular-expression tests that no theorem exercises on a non-trivial
  input are likewise passed in as explicit function parameters.
-/

namespace SpamGuard

/-- Model of a JavaScript string: a list of characters. -/
abbrev Str := List Char


/-- Convert a Lean string literal to the model type. -/
def str (s : String) : Str := s.data


/-- JavaScript toLowerCase, restricted to the ASCII fragment. -/
def lowerStr (s : Str) : Str := s.map Char.toLower


/-- The whitespace class used by the JavaScript regex class backslash-s and
by String.trim, restricted to the ASCII fragment. -/
def isWs (c : Char) : Bool :=
  c = ' ' || c = '\t' || c = '\n' || c = '\r' || c = '\x0b' || c = '\x0c'


/-- JavaScript String.trim on the model. -/
def trimStr (s : Str) : Str :=
  ((s.dropWhile isWs).reverse.dropWhile isWs).reverse


/-- JavaScript String.includes: the needle occurs as a contiguous substring
of the haystack. -/
def hasSub : Str → Str → Bool
  | [], n => n.isEmpty
  | c :: rest, n => n.isPrefixOf (c :: rest) || hasSub rest n


/-- Count the occurrences of one character in a string
(models text.match with a single-character global regex). -/
def countChar (c : Char) (s : Str) : Nat := s.countP (· = c)


-- ===========================================================================
-- engine.ts: score aggregation, verdict and classification (lines 54 to 105)
-- ===========================================================================

/-- types.ts SpamGuardConfig. -/
structure SpamGuardConfig where
  spamThreshold : ℚ
  probableSpamThreshold : ℚ
  enableDebug : Bool


/-- types.ts DEFAULT_CONFIG. -/
def DEFAULT_CONFIG : SpamGuardConfig :=
  { spamThreshold := 35/10, probableSpamThreshold := 2, enableDebug := false }


/-- The four-way classification of engine.ts line 67. -/
inductive Classification
  | ham
  | spam
  | probable_spam
  | probable_ham
deriving DecidableEq, Repr


/-- engine.ts line 55: analyzers.reduce of the six analyzer scores. -/
def totalScore (analyzerScores : List ℚ) : ℚ := analyzerScores.foldl (· + ·) 0


/-- JavaScript Math.round: round half toward positive infinity. -/
def jsMathRound (x : ℚ) : ℤ := ⌊x + 1/2⌋


/-- engine.ts line 98: Math.round(totalScore * 100) / 100. -/
def roundTo2 (x : ℚ) : ℚ := (jsMathRound (x * 100) : ℚ) / 100


/-- engine.ts line 68: isSpam is computed from the unrounded total. -/
def engineIsSpam (total : ℚ) (config : SpamGuardConfig) : Bool :=
  decide (total ≥ config.spamThreshold)


/-- engine.ts lines 70 to 78: the classification chain, first match wins. -/
def classify (total : ℚ) (config : SpamGuardConfig) : Classification :=
  if total ≥ config.spamThreshold then .spam
  else if total ≥ config.probableSpamThreshold then .probable_spam
  else if total ≤ 1 then .ham
  else .probable_ham


/-- The classification derivation exactly as the specification words it:
score at or above spamThreshold is spam; else at or above
probableSpamThreshold is probable_spam; else at or below the fixed
literal 1.0 is ham; else probable_ham. -/
def classifySpec (score : ℚ) (config : SpamGuardConfig) : Classification :=
  if score ≥ config.spamThreshold then .spam
  else if score ≥ config.probableSpamThreshold then .probable_spam
  else if score ≤ 1 then .ham
  else .probable_ham


/-- The fields of the Spam Analysis Result that the scoring logic fills in
(engine.ts lines 96 to 105); timing, confidence and reasons omitted. -/
structure SpamAnalysisResult where
  isSpam : Bool
  score : ℚ
  threshold : ℚ
  classification : Classification


/-- engine.ts analyze, from the six analyzer scores onward. -/
def buildResult (analyzerScores : List ℚ) (config : SpamGuardConfig) :
    SpamAnalysisResult :=
  let total := totalScore analyzerScores
  { isSpam := engineIsSpam total config
    score := roundTo2 total
    threshold := config.spamThreshold
    classification := classify total config }


-- ===========================================================================
-- bayesian.ts lines 161 to 179 and 244: probability to score mapping
-- ===========================================================================

/-- bayesian.ts lines 163 to 179: the if chain mapping the aggregate spam
probability to the pre floor score. -/
def bayesRawScore (p : ℚ) : ℚ :=
  if p > 9/10 then 4
  else if p > 8/10 then 3
  else if p > 7/10 then 2
  else if p > 6/10 then 1
  else if p > 5/10 then 1/2
  else if p < 3/10 then -1
  else if p < 2/10 then -2
  else 0


/-- bayesian.ts line 244: the reported score is floored at 0. -/
def bayesReportedScore (p : ℚ) : ℚ := max 0 (bayesRawScore p)


/-- The score mapping exactly as the specification lists it, in the stated
order with the first matching condition winning. -/
def bayesScoreSpec (p : ℚ) : ℚ :=
  if p > 9/10 then 4
  else if p > 8/10 then 3
  else if p > 7/10 then 2
  else if p > 6/10 then 1
  else if p > 5/10 then 1/2
  else if p < 3/10 then -1
  else if p < 2/10 then -2
  else 0


-- ===========================================================================
-- header.ts lines 203 to 226: the SPF rule branch
-- ===========================================================================

/-- header.ts lines 207 to 226: which SPF rule fires for a given value of
the received-spf header, as the list of (rule name, rule score) matches
pushed by that branch. Scores are the catalog values of lines 16 to 32:
SPF_FAIL 2.5, SPF_SOFTFAIL 1.5, SPF_NONE 0.1. The emptiness test models
the JavaScript falsiness of an empty string. -/
def spfMatches (receivedSpf : Str) : List (String × ℚ) :=
  if hasSub (lowerStr receivedSpf) (str "fail")
      && !hasSub (lowerStr receivedSpf) (str "softfail") then
    [("SPF_FAIL", 5/2)]
  else if hasSub (lowerStr receivedSpf) (str "softfail") then
    [("SPF_SOFTFAIL", 3/2)]
  else if hasSub (lowerStr receivedSpf) (str "none") || receivedSpf.isEmpty then
    [("SPF_NONE", 1/10)]
  else []


-- ===========================================================================
-- A small regular-expression library used to embed the regex literals of
-- the sources that the theorems must evaluate. Matching is defined by
-- Brzozowski derivatives; searching returns the leftmost match with its
-- end position (greedy, which coincides with the JavaScript semantics for
-- every pattern embedded below since their alternatives are disjoint on
-- the first character).
-- ===========================================================================

/-- Regular expressions over characters; classes are Boolean predicates. -/
inductive Rx
  | eps
  | cls (p : Char → Bool)
  | cat (a b : Rx)
  | alt (a b : Rx)
  | star (a : Rx)


/-- The empty (never matching) regex. -/
def Rx.none : Rx := .cls (fun _ => false)


def Rx.nullable : Rx → Bool
  | .eps => true
  | .cls _ => false
  | .cat a b => a.nullable && b.nullable
  | .alt a b => a.nullable || b.nullable
  | .star _ => true


def Rx.deriv : Rx → Char → Rx
  | .eps, _ => Rx.none
  | .cls p, c => if p c then .eps else Rx.none
  | .cat a b, c =>
      if a.nullable then .alt (.cat (a.deriv c) b) (b.deriv c)
      else .cat (a.deriv c) b
  | .alt a b, c => .alt (a.deriv c) (b.deriv c)
  | .star a, c => .cat (a.deriv c) (.star a)


/-- Whole-string match (used for anchored patterns of the form hat-dollar). -/
def Rx.matches (r : Rx) (s : Str) : Bool := (s.foldl Rx.deriv r).nullable


/-- Length of the longest match starting at the head of s, if any. -/
def Rx.longestHere : Rx → Str → Option Nat
  | r, [] => if r.nullable then some 0 else Option.none
  | r, c :: rest =>
      match (r.deriv c).longestHere rest with
      | some n => some (n + 1)
      | Option.none => if r.nullable then some 0 else Option.none


/-- Leftmost match at or after index i: start and end positions. -/
def Rx.searchFrom (r : Rx) (s : Str) (i : Nat) : Option (Nat × Nat) :=
  go (s.drop i) i
where
  go : Str → Nat → Option (Nat × Nat)
    | l, j =>
      match r.longestHere l with
      | some n => some (j, j + n)
      | Option.none =>
        match l with
        | [] => Option.none
        | _ :: rest => go rest (j + 1)


/-- Test for an unanchored, non-global regex (RegExp.test). -/
def Rx.test (r : Rx) (s : Str) : Bool := (r.searchFrom s 0).isSome


/-- Test anchored at the start of the string (patterns beginning with hat). -/
def Rx.testStart (r : Rx) (s : Str) : Bool := (r.longestHere s).isSome


/-- One call of RegExp.exec on a regex carrying the global flag: the search
starts at the persisted lastIndex; a hit returns the match and stores its
end position, a miss returns nothing and resets lastIndex to 0. -/
def execG (r : Rx) (s : Str) (lastIndex : Nat) : Option (Nat × Nat) × Nat :=
  match r.searchFrom s lastIndex with
  | some (a, b) => (some (a, b), b)
  | Option.none => (Option.none, 0)


-- Convenience constructors mirroring regex literal pieces.

/-- A literal character. -/
def chC (c : Char) : Rx := .cls (· = c)


/-- A literal character under the i flag (ASCII case folding). -/
def chCI (c : Char) : Rx := .cls (fun x => x.toLower = c.toLower)


/-- A literal string under the i flag. -/
def litCI (s : String) : Rx := s.data.foldr (fun c r => .cat (chCI c) r) .eps


/-- A literal string, case sensitive. -/
def litCS (s : String) : Rx := s.data.foldr (fun c r => .cat (chC c) r) .eps


/-- The question-mark quantifier. -/
def rxOpt (r : Rx) : Rx := .alt r .eps


/-- The plus quantifier. -/
def rxPlus (r : Rx) : Rx := .cat r (.star r)


/-- The backslash-d class. -/
def rxDigit : Rx := .cls Char.isDigit


/-- The quantifier of the form braces one comma three. -/
def rep1to3 (r : Rx) : Rx := .cat r (rxOpt (.cat r (rxOpt r)))


/-- The backslash-s class (ASCII fragment). -/
def rxWs : Rx := .cls isWs


/-- Exactly three digits, as in comma backslash-d braces-three. -/
def rxD3 : Rx := .cat rxDigit (.cat rxDigit rxDigit)


-- ===========================================================================
-- data/patterns.ts CURRENCY_AMOUNT and pattern.ts lines 25, 80 to 94:
-- the module-level global regex whose lastIndex persists between calls
-- ===========================================================================

/-- The CURRENCY_AMOUNT pattern of data/patterns.ts (flags g and i). -/
def CURRENCY_AMOUNT_rx : Rx :=
  .alt
    (.cat (.cls (fun c => c = '$' || c = '€' || c = '£' || c = '¥'))
      (.cat (.star rxWs)
        (.cat (rep1to3 rxDigit)
          (.cat (.star (.cat (chC ',') rxD3))
            (rxOpt (.cat (chC '.') (.cat rxDigit rxDigit)))))))
    (.cat (rep1to3 rxDigit)
      (.cat (.star (.cat (chC ',') rxD3))
        (.cat (rxOpt (.cat (chC '.') (.cat rxDigit rxDigit)))
          (.cat (.star rxWs)
            (.alt (.cat (litCI "dollar") (rxOpt (chCI 's')))
              (.alt (litCI "USD") (.alt (litCI "EUR") (litCI "GBP"))))))))


/-- The combined text the pattern analyzer builds for the email input with
textBody dollar-100 and everything else empty (pattern.ts line 22). -/
def currencyCallText : Str := str " $100 "


/-- pattern.ts lines 80 to 94 specialized to the CURRENCY_AMOUNT pattern:
one analyze call runs exec against the module-level regex, adds the score
0.5 when a match is returned, and leaves the mutated lastIndex behind for
the next call. Returns whether the rule fired and the new lastIndex. -/
def currencyStep (lastIndex : Nat) : Bool × Nat :=
  match execG CURRENCY_AMOUNT_rx currencyCallText lastIndex with
  | (some _, li) => (true, li)
  | (Option.none, li) => (false, li)


-- ===========================================================================
-- The accumulator every analyzer builds: a list of pushed rule matches as
-- (rule name, rule score) pairs next to the separately accumulated total,
-- mirroring the paired matches.push and totalScore increment of each site.
-- ===========================================================================

structure Acc where
  matchList : List (String × ℚ)
  score : ℚ
deriving DecidableEq


def Acc.empty : Acc := ⟨[], 0⟩


/-- One push site: append the match and add its score to the running total. -/
def Acc.push (a : Acc) (name : String) (sc : ℚ) : Acc :=
  ⟨a.matchList ++ [(name, sc)], a.score + sc⟩


/-- Whether a rule of the given name was already pushed
(models matches.find by rule name). -/
def Acc.has (a : Acc) (name : String) : Bool :=
  a.matchList.any (fun m => m.1 = name)


/-- A conditional push site: push the match exactly when the Boolean
condition holds. -/
def Acc.pushIf (c : Bool) (a : Acc) (n : String) (s : ℚ) : Acc :=
  if c then a.push n s else a


/-- A push site fed by the first matching row of a pattern table, with a
name prefix; no row, no push. -/
def Acc.pushOpt (o : Option (String × ℚ)) (pre : String) (a : Acc) : Acc :=
  match o with
  | some pr => a.push (pre ++ pr.1) pr.2
  | Option.none => a


/-- The sum of the scores of the rules in a match list. -/
def matchSum (l : List (String × ℚ)) : ℚ := (l.map Prod.snd).sum


/-- The analyzer invariant of claim C8: the accumulated score equals the
sum of the pushed match scores. -/
def Acc.Synced (a : Acc) : Prop := a.score = matchSum a.matchList


/-- Scores pushed so far all lie in a set of admissible scores. -/
def Acc.ScoresIn (a : Acc) (P : ℚ → Prop) : Prop := ∀ m ∈ a.matchList, P m.2


-- ===========================================================================
-- html.ts analyzeHtml
-- ===========================================================================

/-- The outcomes of the regex tests and tag counts analyzeHtml performs on
the html body, passed in as functions of the html string because no claim
exercises their patterns on a non-empty body. The list-valued fields model
the pattern arrays the source iterates (hiddenPatterns, colorPatterns,
trackingPixelPatterns, jsPatterns); htmlToText models extractTextFromHtml. -/
structure HtmlTests where
  hiddenTests : List (Str → Bool)
  tinyFont : Str → Bool
  colorTests : List (Str → Bool)
  imgTagCount : Str → Nat
  htmlToText : Str → Str
  remoteImgCount : Str → Nat
  trackingTests : List (Str → Bool)
  base64Img : Str → Bool
  formTest : Str → Bool
  jsTests : List (Str → Bool)
  iframeTest : Str → Bool
  objectEmbedTest : Str → Bool
  commentsCount : Str → Nat
  commentsLen : Str → Nat
  tableCount : Str → Nat
  openTagCount : Str → Nat
  closeTagCount : Str → Nat


/-- A loop over a pattern list that pushes one deduplicated flag
(html.ts lines 141 to 153 and the analogous later loops). -/
def dedupLoop (tests : List (Str → Bool)) (html : Str) (name : String)
    (sc : ℚ) (a : Acc) : Acc :=
  tests.foldl (fun a p => if p html && !a.has name then a.push name sc else a) a


/-- html.ts analyzeHtml: returns the match accumulator together with the
hasHtml metadata flag. The early return of lines 120 to 128 yields the
zero result with hasHtml false. -/
def analyzeHtml (t : HtmlTests) (html : Str) : Acc × Bool :=
  if html.isEmpty || (trimStr html).isEmpty then (Acc.empty, false)
  else
    let a1 := dedupLoop t.hiddenTests html "HIDDEN_TEXT" (5/2) Acc.empty
    let a2 := if t.tinyFont html then a1.push "TINY_FONT" 2 else a1
    let a3 := dedupLoop t.colorTests html "INVISIBLE_INK" (5/2) a2
    let imgTags := t.imgTagCount html
    let a4 := if imgTags > 10 then a3.push "EXCESSIVE_IMAGES" (8/10) else a3
    let textContent := trimStr (t.htmlToText html)
    let a5 := if imgTags > 0 && decide (textContent.length < 50) then
        a4.push "IMAGE_ONLY" 2 else a4
    let a6 := if t.remoteImgCount html > 0 then a5.push "REMOTE_IMAGES" (5/10) else a5
    let a7 := dedupLoop t.trackingTests html "TRACKING_PIXEL" (8/10) a6
    let a8 := if t.base64Img html then a7.push "BASE64_IMAGE" (3/10) else a7
    let a9 := if t.formTest html then a8.push "SUSPICIOUS_FORM" (3/2) else a8
    let a10 := dedupLoop t.jsTests html "JAVASCRIPT_PRESENT" 2 a9
    let a11 := if t.iframeTest html then a10.push "IFRAME_PRESENT" (5/2) else a10
    let a12 := if t.objectEmbedTest html then a11.push "OBJECT_EMBED" 2 else a11
    let a13 := if t.commentsCount html > 10 || t.commentsLen html > 1000 then
        a12.push "COMMENT_STUFFING" 1 else a12
    let a14 := if t.tableCount html > 5 then a13.push "TABLE_SPAM_LAYOUT" (5/10) else a13
    let openTags := t.openTagCount html
    let closeTags := t.closeTagCount html
    let diff : Nat := max openTags closeTags - min openTags closeTags
    let a15 := if 0 < openTags ∧ ((diff : ℚ) / (openTags : ℚ) > 3/10) then
        a14.push "MALFORMED_HTML" (5/10) else a14
    (a15, true)


/-- A trivial instantiation of the HTML test oracle, used by witnesses. -/
def trivialHtmlTests : HtmlTests :=
  { hiddenTests := [], tinyFont := fun _ => false, colorTests := []
    imgTagCount := fun _ => 0, htmlToText := fun _ => []
    remoteImgCount := fun _ => 0, trackingTests := []
    base64Img := fun _ => false, formTest := fun _ => false, jsTests := []
    iframeTest := fun _ => false, objectEmbedTest := fun _ => false
    commentsCount := fun _ => 0, commentsLen := fun _ => 0
    tableCount := fun _ => 0, openTagCount := fun _ => 0
    closeTagCount := fun _ => 0 }


/-- JavaScript Math.max on two rationals, written so that the kernel can
evaluate it. -/
def jsMax (a b : ℚ) : ℚ := if a ≤ b then b else a


/-- JavaScript Math.min on two rationals. -/
def jsMin (a b : ℚ) : ℚ := if a ≤ b then a else b


/-- Math.abs on rationals. -/
def ratAbs (x : ℚ) : ℚ := if x < 0 then -x else x


-- ===========================================================================
-- types.ts ParsedEmail (the fields the analyzers read)
-- ===========================================================================

/-- types.ts EmailAddress. -/
structure EmailAddressM where
  name : Option Str
  address : Str
  domain : Str
  localPart : Str
deriving DecidableEq


/-- types.ts ReceivedHeader (the from token is the only field analyzed). -/
structure ReceivedM where
  fromTok : Option Str
deriving DecidableEq


/-- types.ts ParsedEmail. Header names are lowercased keys into an ordered
association list; the date is a millisecond timestamp (Date.getTime). -/
structure ParsedEmailM where
  headers : List (String × List Str)
  subject : Str
  fromAddr : Option EmailAddressM
  toAddrs : List EmailAddressM
  replyTo : Option EmailAddressM
  returnPath : Option Str
  messageId : Option Str
  date : Option ℤ
  textBody : Str
  htmlBody : Str
  receivedChain : List ReceivedM


/-- Map.get on the header table. -/
def getHeaderVals (e : ParsedEmailM) (k : String) : Option (List Str) :=
  (e.headers.find? (fun p => p.1 = k)).map (·.2)


/-- The idiom headers.get(k)?.[0] followed by a fallback to the empty
string for a missing or absent value. -/
def headerFirst (e : ParsedEmailM) (k : String) : Str :=
  match getHeaderVals e k with
  | some (v :: _) => v
  | _ => []


/-- The result of parseEmail on the input with empty subject and empty
textBody and no other field (parser/email.ts parseStructuredEmail): no
headers are added, from parses to null, the to list filters to empty. -/
def emptyParsedEmail : ParsedEmailM :=
  { headers := [], subject := [], fromAddr := Option.none, toAddrs := []
    replyTo := Option.none, returnPath := Option.none
    messageId := Option.none, date := Option.none
    textBody := [], htmlBody := [], receivedChain := [] }


-- ===========================================================================
-- JavaScript split on the backslash-s-plus regex
-- ===========================================================================

/-- JavaScript String.split on a whitespace-run regex: maximal whitespace
runs separate the pieces, with a leading or trailing empty piece when the
string starts or ends with whitespace. -/
def jsSplitWs : Str → List Str
  | [] => [[]]
  | c :: rest =>
      if isWs c then
        match rest with
        | [] => [[], []]
        | d :: _ =>
            if isWs d then jsSplitWs rest else [] :: jsSplitWs rest
      else
        match jsSplitWs rest with
        | [] => [[c]]
        | h :: t => (c :: h) :: t


-- ===========================================================================
-- bayesian.ts: tokenizer, Robinson-Fisher combination, analyzer
-- ===========================================================================

/-- The character class kept by the tokenizer replace of bayesian.ts line
32: letters, digits, whitespace, apostrophe and hyphen (ASCII fragment of
the Unicode classes). -/
def jsTokenChar (c : Char) : Bool :=
  c.isAlpha || c.isDigit || isWs c || c.val = 39 || c = '-'


/-- Update of the insertion-ordered token count map of bayesian.ts
lines 37 to 40. -/
def bumpCount (acc : List (Str × Nat)) (t : Str) : List (Str × Nat) :=
  if acc.any (fun p => p.1 = t) then
    acc.map (fun p => if p.1 = t then (p.1, p.2 + 1) else p)
  else acc ++ [(t, 1)]


/-- bayesian.ts tokenize (lines 26 to 53): lowercase, replace everything
outside the kept class with spaces, split on whitespace, keep tokens of
length 3 to 20, then emit each distinct token once, and once more when it
occurred at least 3 times. -/
def tokenize (text : Str) : List Str :=
  let toks := (jsSplitWs ((lowerStr text).map
      (fun c => if jsTokenChar c then c else ' '))).filter
      (fun t => decide (3 ≤ t.length) && decide (t.length ≤ 20))
  let counts := toks.foldl bumpCount []
  counts.flatMap (fun p => if p.2 ≥ 3 then [p.1, p.1] else [p.1])


/-- The token probability table of the active language dataset: ordered
(token, (spam, ham)) rows. The dataset file itself (en.json) is external
data not present in the sources, so tables are parameters. -/
abbrev TokenTable := List (Str × ℚ × ℚ)


def lookupTok (table : TokenTable) (t : Str) : Option (ℚ × ℚ) :=
  (table.find? (fun p => p.1 = t)).map (·.2)


/-- Stable insertion into a list sorted by strictly descending key: the
new element goes after every already present element of equal key,
modelling the stable JavaScript sort with the comparator
b.distance minus a.distance. -/
def insertDesc (key : (ℚ × ℚ) → ℚ) (x : ℚ × ℚ) : List (ℚ × ℚ) → List (ℚ × ℚ)
  | [] => [x]
  | y :: t => if key x > key y then x :: y :: t else y :: insertDesc key x t


def sortDesc (key : (ℚ × ℚ) → ℚ) (l : List (ℚ × ℚ)) : List (ℚ × ℚ) :=
  l.foldr (insertDesc key) []


/-- bayesian.ts calculateRobinsonFisher (lines 58 to 96). The sort models
the stable JavaScript sort by descending distance from one half. -/
def calcRF (tokens : List Str) (table : TokenTable) : ℚ :=
  let probabilities := tokens.filterMap
      (fun t => (lookupTok table (lowerStr t)).map (fun pr => pr.1 / (pr.1 + pr.2)))
  if probabilities.isEmpty then 1/2
  else
    let significant := ((sortDesc (·.2)
        (probabilities.map (fun p => (p, ratAbs (p - 1/2))))).take 15).map (·.1)
    let productSpam := significant.foldl (fun acc p => acc * p) 1
    let productHam := significant.foldl (fun acc p => acc * (1 - p)) 1
    if productSpam = 0 ∧ productHam = 0 then 1/2
    else jsMax 0 (jsMin 1 (productSpam / (productSpam + productHam)))


/-- The fields of the Bayesian analyzer result the claims read. -/
structure BayesResult where
  acc : Acc
  spamProbability : ℚ
deriving DecidableEq


/-- The non-empty-token branch of analyzeBayesian (lines 138 to 259):
known token collection, the aggregate probability, the explanation
matches and the floored mapped score. -/
def bayesMain (table : TokenTable) (tokens : List Str) : BayesResult :=
  let known := tokens.filterMap
      (fun t => (lookupTok table t).map (fun pr => (t, pr.1 / (pr.1 + pr.2))))
  let spamTokens := (known.filter (fun kp => decide (kp.2 > 7/10))).map (·.1)
  let hamTokens := (known.filter (fun kp => decide (kp.2 < 3/10))).map (·.1)
  let p := calcRF tokens table
  let score := bayesRawScore p
  let a1 := if spamTokens.length > 0 then
      Acc.empty.push "BAYES_SPAM_TOKENS" (jsMin ((spamTokens.length : ℚ) * (3/10)) 2)
    else Acc.empty
  let a2 := if hamTokens.length > 0 then
      a1.push "BAYES_HAM_TOKENS" (-(jsMin ((hamTokens.length : ℚ) * (2/10)) (3/2)))
    else a1
  let a3 := if p > 7/10 then a2.push "BAYES_SPAM" score
    else if p < 3/10 then a2.push "BAYES_HAM" score
    else a2
  ⟨⟨a3.matchList, jsMax 0 score⟩, p⟩


/-- The empty-token early return of analyzeBayesian (lines 128 to 136)
around the main branch: no tokens gives the neutral probability 0.5 and
an empty result. -/
def bayesFromTokens (table : TokenTable) (tokens : List Str) : BayesResult :=
  if tokens.isEmpty then ⟨Acc.empty, 1/2⟩
  else bayesMain table tokens


/-- bayesian.ts analyzeBayesian (lines 105 to 260); the language dataset
table and extractTextFromHtml are parameters. The analyzer score is the
floored mapped probability score, not a sum over the pushed matches. -/
def analyzeBayesian (table : TokenTable) (htmlToText : Str → Str)
    (e : ParsedEmailM) : BayesResult :=
  let htmlText := if e.htmlBody.isEmpty then [] else htmlToText e.htmlBody
  let allText := e.subject ++ [' '] ++ e.textBody ++ [' '] ++ htmlText
  bayesFromTokens table (tokenize allText)


/-- A one-row token table: the token offer with spam frequency 0.65 and
ham frequency 0.35, giving the per-token spam probability 0.65. -/
def c8Table : TokenTable := [(str "offer", (13/20, 7/20))]


/-- The parsed email whose textBody is the single word offer. -/
def c8Email : ParsedEmailM := { emptyParsedEmail with textBody := str "offer" }


-- ===========================================================================
-- utils/text.ts helpers used by the content analyzer
-- ===========================================================================

def isAsciiUpper (c : Char) : Bool := 'A' ≤ c && c ≤ 'Z'


def isAsciiLower (c : Char) : Bool := 'a' ≤ c && c ≤ 'z'


def isAsciiLetter (c : Char) : Bool := isAsciiUpper c || isAsciiLower c


/-- Replace each maximal whitespace run by a single space (the global
replace of normalizeText). -/
def collapseWs : Str → Str
  | [] => []
  | c :: rest =>
      if isWs c then
        match rest with
        | [] => [' ']
        | d :: _ =>
            if isWs d then collapseWs rest else ' ' :: collapseWs rest
      else c :: collapseWs rest


/-- utils/text.ts normalizeText: lowercase, collapse whitespace, trim. -/
def normalizeText (s : Str) : Str := trimStr (collapseWs (lowerStr s))


/-- calculateTextStats wordCount: split on whitespace, keep the non-empty
pieces. -/
def statsWordCount (s : Str) : Nat :=
  ((jsSplitWs s).filter (fun w => w.length > 0)).length


/-- calculateTextStats uppercaseRatio. -/
def uppercaseRatio (s : Str) : ℚ :=
  let letters := s.countP isAsciiLetter
  if letters > 0 then (s.countP isAsciiUpper : ℚ) / (letters : ℚ) else 0


/-- calculateTextStats specialCharRatio. -/
def specialCharRatio (s : Str) : ℚ :=
  if s.length > 0 then
    (s.countP (fun c => !(isAsciiLetter c || c.isDigit || isWs c)) : ℚ) /
      (s.length : ℚ)
  else 0


-- ===========================================================================
-- content.ts analyzeContent
-- ===========================================================================

/-- Count the non-overlapping matches of a global regex, advancing past
each match (text.match with the g flag). Fuel bounds the scan. -/
def countRxMatchesAux (r : Rx) (s : Str) : Nat → Nat → Nat
  | 0, _ => 0
  | fuel + 1, i =>
      match r.searchFrom s i with
      | some (a, b) => 1 + countRxMatchesAux r s fuel (if b = a then a + 1 else b)
      | Option.none => 0


def countRxMatches (r : Rx) (s : Str) : Nat :=
  countRxMatchesAux r s (s.length + 1) 0


/-- The money reference pattern of content.ts line 283 (flags g and i). -/
def moneyRx : Rx :=
  .alt
    (.cat (chC '$')
      (.cat (.star rxWs)
        (.cat (rxPlus (.cls (fun c => c.isDigit || c = ',')))
          (rxOpt (.cat (chC '.') (.cat rxDigit rxDigit))))))
    (.cat (rxPlus rxDigit)
      (.cat (.star rxWs)
        (.alt (.cat (litCI "dollar") (rxOpt (chCI 's')))
          (.alt (litCI "USD") (.alt (litCI "EUR") (litCI "GBP"))))))


/-- A spam phrase row of the external dataset data/spam-words.ts. -/
structure SpamWordM where
  word : Str
  score : ℚ
  category : String
  caseSensitive : Bool


/-- The external content dataset (data/spam-words.ts is not among the
sources): spam phrases, single-word scores, ham adjustments, and the
compiled subject regexes as test functions with their scores. -/
structure ContentData where
  spamWords : List SpamWordM
  spamSingleWords : List (Str × ℚ)
  hamWords : List (Str × ℚ)
  subjectPatterns : List (String × (Str → Bool) × ℚ)


def lookupAssoc (l : List (Str × ℚ)) (k : Str) : Option ℚ :=
  (l.find? (fun p => p.1 = k)).map (·.2)


/-- content.ts lines 179 to 185: whether one spam phrase matches, using
the raw combined text for case-sensitive phrases and the normalized text
otherwise. -/
def spamWordHit (allText normalizedAll : Str) (w : SpamWordM) : Bool :=
  hasSub (if w.caseSensitive then allText else normalizedAll)
    (if w.caseSensitive then w.word else lowerStr w.word)


/-- One iteration of the spam phrase loop (content.ts lines 179 to 200). -/
def spamPhraseStep (allText normalizedAll : Str) (a : Acc) (w : SpamWordM) : Acc :=
  if spamWordHit allText normalizedAll w then
    a.push ("SPAM_PHRASE_" ++ w.category.toUpper) w.score
  else a


def spamPhrasePass (d : List SpamWordM) (allText normalizedAll : Str)
    (a : Acc) : Acc :=
  d.foldl (spamPhraseStep allText normalizedAll) a


/-- The total contribution of the spam phrase loop. -/
def phraseSum (d : List SpamWordM) (allText normalizedAll : Str) : ℚ :=
  match d with
  | [] => 0
  | w :: rest =>
      (if spamWordHit allText normalizedAll w then w.score else 0) +
        phraseSum rest allText normalizedAll


/-- One iteration of the ham phrase loop (content.ts lines 225 to 239). -/
def hamStep (normalizedAll : Str) (a : Acc) (hw : Str × ℚ) : Acc :=
  if hasSub normalizedAll hw.1 then a.push "HAM_PHRASE_MATCH" hw.2 else a


def hamPass (h : List (Str × ℚ)) (normalizedAll : Str) (a : Acc) : Acc :=
  h.foldl (hamStep normalizedAll) a


/-- The total contribution of the ham phrase loop. -/
def hamSum (h : List (Str × ℚ)) (normalizedAll : Str) : ℚ :=
  match h with
  | [] => 0
  | hw :: rest =>
      (if hasSub normalizedAll hw.1 then hw.2 else 0) + hamSum rest normalizedAll


/-- One iteration of the single spam word loop (content.ts lines 206 to
222): the word list accumulates the already credited words, a zero score
is falsy and never fires. -/
def singleWordStep (d : ContentData) (p : Acc × List Str) (w : Str) :
    Acc × List Str :=
  match lookupAssoc d.spamSingleWords w with
  | some sc =>
      if !decide (sc = 0) && !p.2.contains w then
        (p.1.push "SPAM_WORD_MATCH" sc, p.2 ++ [w])
      else p
  | Option.none => p


/-- The dataset driven middle of analyzeContent (content.ts lines 161 to
239): the subject pattern loop, the spam phrase loop, the single word
loop and the ham phrase loop, in source order. -/
def contentDynamic (d : ContentData) (subject allText normalizedAll : Str)
    (a : Acc) : Acc :=
  let a5 := d.subjectPatterns.foldl
      (fun a pat => Acc.pushIf (pat.2.1 subject) a
        ("SUBJECT_PATTERN_" ++ pat.1) pat.2.2) a
  let a6 := spamPhrasePass d.spamWords allText normalizedAll a5
  let a7 := ((jsSplitWs normalizedAll).foldl (singleWordStep d) (a6, [])).1
  hamPass d.hamWords normalizedAll a7


/-- The accumulated matches of analyzeContent before the final floor:
content.ts lines 99 to 297 in source order. -/
def contentAcc (d : ContentData) (htmlToText : Str → Str)
    (e : ParsedEmailM) : Acc :=
  let textBody := e.textBody
  let htmlBody := e.htmlBody
  let htmlText := if htmlBody.isEmpty then [] else htmlToText htmlBody
  let bodyText := if textBody.length > htmlText.length then textBody else htmlText
  let allText := e.subject ++ [' '] ++ bodyText
  let normalizedAll := normalizeText allText
  let a1 := Acc.pushIf (decide ((trimStr bodyText).length < 10))
    Acc.empty "EMPTY_BODY" 1
  let a2 := Acc.pushIf (!htmlBody.isEmpty && textBody.isEmpty)
    a1 "BODY_HTML_ONLY" (5/10)
  let a3 := Acc.pushIf (e.subject.isEmpty || (trimStr e.subject).isEmpty)
    a2 "SUBJECT_EMPTY" 1
  let letters := e.subject.countP isAsciiLetter
  let uppers := e.subject.countP isAsciiUpper
  let a4 := Acc.pushIf (!e.subject.isEmpty && decide (e.subject.length > 5)
      && decide (letters > 5) && decide ((uppers : ℚ) / (letters : ℚ) > 8/10))
    a3 "SUBJECT_ALL_CAPS" 1
  let a8 := contentDynamic d e.subject allText normalizedAll a4
  let a9 := Acc.pushIf (decide (uppercaseRatio bodyText > 3/10)
      && decide (statsWordCount bodyText > 20)) a8 "HIGH_CAPS_RATIO" (5/10)
  let a10 := Acc.pushIf (decide (specialCharRatio bodyText > 15/100))
    a9 "HIGH_SPECIAL_CHAR_RATIO" (5/10)
  let a11 := Acc.pushIf (decide (countChar '!' allText > 5))
    a10 "MULTIPLE_EXCLAMATIONS" (5/10)
  Acc.pushIf (decide (countRxMatches moneyRx allText > 3))
    a11 "EXCESSIVE_MONEY_REFS" (5/10)


/-- content.ts analyzeContent. The dataset and extractTextFromHtml are
parameters; everything else is concrete. The final score is floored at 0
(line 301) while the match list is returned as accumulated. -/
def analyzeContent (d : ContentData) (htmlToText : Str → Str)
    (e : ParsedEmailM) : Acc :=
  ⟨(contentAcc d htmlToText e).matchList, jsMax 0 (contentAcc d htmlToText e).score⟩


-- ===========================================================================
-- Claim C7: content analyzer monotonicity
-- ===========================================================================

/-- The dataset for the C7 counterexample: the single case-insensitive
spam phrase free-money-offer with score 0.5 and no other entries. -/
def c7Data : ContentData :=
  { spamWords := [⟨str "free money offer", 1/2, "finance", false⟩]
    spamSingleWords := [], hamWords := [], subjectPatterns := [] }


def c7Email1 : ParsedEmailM := { emptyParsedEmail with subject := str "x" }


def c7Email2 : ParsedEmailM :=
  { emptyParsedEmail with subject := str "x", textBody := str "free money offer" }


-- ===========================================================================
-- header.ts analyzeHeaders
-- ===========================================================================

/-- header.ts FREEMAIL_DOMAINS. -/
def FREEMAIL_DOMAINS : List Str :=
  [str "gmail.com", str "yahoo.com", str "hotmail.com", str "outlook.com",
   str "aol.com", str "mail.com", str "protonmail.com", str "icloud.com",
   str "zoho.com", str "yandex.com", str "gmx.com", str "gmx.net",
   str "live.com", str "msn.com", str "me.com"]


/-- header.ts DISPOSABLE_DOMAINS. -/
def DISPOSABLE_DOMAINS : List Str :=
  [str "tempmail.com", str "guerrillamail.com", str "10minutemail.com",
   str "mailinator.com", str "throwaway.email", str "temp-mail.org",
   str "fakeinbox.com", str "trashmail.com", str "getnada.com",
   str "maildrop.cc", str "dispostable.com", str "yopmail.com",
   str "sharklasers.com", str "guerrillamail.info", str "grr.la",
   str "spam4.me"]


/-- header.ts SUSPICIOUS_MAILERS: the six case-insensitive patterns. -/
def SUSPICIOUS_MAILERS_rx : List Rx :=
  [.cat (litCI "mass") (.cat (.star rxWs) (litCI "mail")),
   .cat (litCI "bulk") (.cat (.star rxWs) (litCI "mail")),
   .cat (litCI "email") (.cat (.star rxWs) (litCI "blast")),
   litCI "newsletter", litCI "phpmailer", litCI "swiftmailer"]


/-- The Message-ID format regex of header.ts line 303, anchored on both
sides: an at-free nonempty local part and a gt-free nonempty rest inside
angle brackets. -/
def msgIdRx : Rx :=
  .cat (chC '<') (.cat (rxPlus (.cls (· ≠ '@')))
    (.cat (chC '@') (.cat (rxPlus (.cls (· ≠ '>'))) (chC '>'))))


/-- The capture of the return-path regex of header.ts line 372: at the
leftmost at-sign followed by at least one character other than gt, the
maximal gt-free run after it. -/
def rpScan : Str → Option Str
  | [] => Option.none
  | c :: rest =>
      if c = '@' then
        let cap := rest.takeWhile (· ≠ '>')
        if cap.isEmpty then rpScan rest else some cap
      else rpScan rest


/-- JavaScript string falsiness of an optional header value. -/
def jsFalsyOptStr (o : Option Str) : Bool :=
  match o with
  | Option.none => true
  | some v => v.isEmpty


/-- The break-on-first-match loop over the received chain
(header.ts lines 330 to 353); the forged-hop test is a parameter since no
claim exercises its two regexes. -/
def forgedScan (forged : Str → Bool) : List ReceivedM → Bool
  | [] => false
  | r :: rest =>
      match r.fromTok with
      | some f => if forged f then true else forgedScan forged rest
      | Option.none => forgedScan forged rest


-- The steps of analyzeHeaders, one per source block, applied in source
-- order to the accumulator.

/-- header.ts lines 203 to 226: the SPF branch. -/
def hdrSpf (e : ParsedEmailM) : Acc :=
  (spfMatches (headerFirst e "received-spf")).foldl
    (fun a m => a.push m.1 m.2) Acc.empty


/-- header.ts lines 229 to 246: DKIM. -/
def hdrDkim (e : ParsedEmailM) (a : Acc) : Acc :=
  if hasSub (lowerStr (headerFirst e "authentication-results")) (str "dkim=fail")
  then a.push "DKIM_FAIL" 2
  else if jsFalsyOptStr ((getHeaderVals e "dkim-signature").bind List.head?)
  then a.push "DKIM_NONE" 0
  else a


/-- header.ts lines 249 to 253: DMARC. -/
def hdrDmarc (e : ParsedEmailM) (a : Acc) : Acc :=
  if hasSub (lowerStr (headerFirst e "authentication-results")) (str "dmarc=fail")
  then a.push "DMARC_FAIL" (5/2)
  else a


/-- header.ts lines 256 to 260: missing From. -/
def hdrFrom (e : ParsedEmailM) (a : Acc) : Acc :=
  if e.fromAddr.isNone then a.push "MISSING_FROM" 2 else a


/-- header.ts lines 263 to 294: missing, future or very old date; now is
the clock reading of new Date() at the call. -/
def hdrDate (now : ℤ) (e : ParsedEmailM) (a : Acc) : Acc :=
  match e.date with
  | Option.none => a.push "MISSING_DATE" (1/10)
  | some t =>
      let a1 := if t > now + 86400000 then a.push "FUTURE_DATE" (3/2) else a
      if t < now - 365 * 86400000 then a1.push "VERY_OLD_DATE" 1 else a1


/-- header.ts lines 297 to 315: Message-ID missing or malformed. -/
def hdrMsgId (e : ParsedEmailM) (a : Acc) : Acc :=
  if jsFalsyOptStr e.messageId then a.push "MISSING_MESSAGE_ID" (1/10)
  else if !msgIdRx.matches (e.messageId.getD []) then
    a.push "INVALID_MESSAGE_ID" 1
  else a


/-- header.ts lines 318 to 327: too many received hops. -/
def hdrReceived (e : ParsedEmailM) (a : Acc) : Acc :=
  if e.receivedChain.length > 15 then a.push "TOO_MANY_RECEIVED" 1 else a


/-- header.ts lines 330 to 353: forged received hop, one flag per email. -/
def hdrForged (forged : Str → Bool) (e : ParsedEmailM) (a : Acc) : Acc :=
  if forgedScan forged e.receivedChain then a.push "FORGED_RECEIVED" 2 else a


/-- header.ts lines 356 to 368: From versus Reply-To domain mismatch. -/
def hdrReplyTo (e : ParsedEmailM) (a : Acc) : Acc :=
  match e.fromAddr, e.replyTo with
  | some f, some r =>
      if f.domain ≠ r.domain then a.push "FROM_REPLY_TO_MISMATCH" (3/2) else a
  | _, _ => a


/-- header.ts lines 371 to 386: From versus Return-Path domain mismatch. -/
def hdrReturnPath (e : ParsedEmailM) (a : Acc) : Acc :=
  match e.fromAddr with
  | some f =>
      let rp := e.returnPath.getD []
      if rp.isEmpty then a
      else
        match rpScan rp with
        | some cap =>
            if f.domain ≠ lowerStr cap then
              a.push "FROM_RETURN_PATH_MISMATCH" 1
            else a
        | Option.none => a
  | Option.none => a


/-- header.ts lines 389 to 403: suspicious X-Mailer, break on first. -/
def hdrMailer (e : ParsedEmailM) (a : Acc) : Acc :=
  if SUSPICIOUS_MAILERS_rx.any (fun r => r.test (headerFirst e "x-mailer"))
  then a.push "SUSPICIOUS_MAILER" 1
  else a


/-- header.ts lines 406 to 428: disposable before freemail, exclusive. -/
def hdrFreemail (e : ParsedEmailM) (a : Acc) : Acc :=
  match e.fromAddr with
  | some f =>
      let fd := lowerStr f.domain
      if DISPOSABLE_DOMAINS.contains fd then a.push "DISPOSABLE_EMAIL" 2
      else if FREEMAIL_DOMAINS.contains fd then a.push "FREEMAIL_FROM" (3/10)
      else a
  | Option.none => a


/-- header.ts lines 431 to 446: no recipient, else undisclosed. -/
def hdrTo (e : ParsedEmailM) (a : Acc) : Acc :=
  if e.toAddrs.isEmpty then a.push "TO_NO_RECIPIENT" (3/2)
  else if hasSub (lowerStr (headerFirst e "to")) (str "undisclosed") then
    a.push "TO_UNDISCLOSED" (8/10)
  else a


/-- header.ts lines 449 to 461: priority flag. -/
def hdrPriority (e : ParsedEmailM) (a : Acc) : Acc :=
  let priority :=
    if (headerFirst e "x-priority").isEmpty then headerFirst e "importance"
    else headerFirst e "x-priority"
  if priority = str "1" || lowerStr priority = str "high" then
    a.push "HIGH_PRIORITY_SPAM" (1/2)
  else a


/-- header.ts analyzeHeaders: the source blocks applied in order. -/
def analyzeHeaders (forged : Str → Bool) (now : ℤ) (e : ParsedEmailM) : Acc :=
  hdrPriority e (hdrTo e (hdrFreemail e (hdrMailer e (hdrReturnPath e
    (hdrReplyTo e (hdrForged forged e (hdrReceived e (hdrMsgId e
      (hdrDate now e (hdrFrom e (hdrDmarc e (hdrDkim e (hdrSpf e)))))))))))))


-- ===========================================================================
-- data/patterns.ts and pattern.ts analyzePatterns
-- ===========================================================================

/-- The names and scores of data/patterns.ts ALL_PATTERNS in catalog
order (obfuscation, formatting, content, structure, encoding). -/
def ALL_PATTERNS_M : List (String × ℚ) :=
  [("SPACED_WORDS", 15/10), ("LETTER_NUMBER_SUBSTITUTION", 8/10),
   ("SYMBOL_SUBSTITUTION", 1), ("ZERO_WIDTH_CHARS", 25/10),
   ("HOMOGRAPH_ATTACK", 15/10), ("EXCESSIVE_PUNCTUATION", 1),
   ("REPEATED_CHARS", 1),
   ("ALL_CAPS_BLOCK", 15/10), ("EXCESSIVE_WHITESPACE", 8/10),
   ("RANDOM_CAPS", 1),
   ("CURRENCY_AMOUNT", 5/10), ("LARGE_MONEY_AMOUNT", 15/10),
   ("PERCENTAGE_CLAIM", 1), ("PHONE_NUMBER_SPAM", 8/10),
   ("TRACKING_NUMBER_FAKE", 12/10), ("LOTTERY_REFERENCE", 15/10),
   ("NIGERIAN_SCAM_MARKERS", 2), ("URGENCY_CAPS", 12/10),
   ("CRYPTO_SCAM", 18/10), ("DATING_SCAM", 3),
   ("VERY_SHORT_BODY", 5/10), ("NO_GREETING", 1/10),
   ("GENERIC_GREETING", 12/10), ("MULTIPLE_URLS", 1),
   ("URL_ONLY_BODY", 2), ("HIDDEN_TEXT_MARKER", 25/10),
   ("BASE64_BLOCK", 5/10), ("ENCODED_URL", 12/10),
   ("HTML_ENTITIES_ABUSE", 15/10)]


/-- JavaScript String.split on a single separator character. -/
def jsSplitChar (sep : Char) : Str → List Str
  | [] => [[]]
  | c :: rest =>
      match jsSplitChar sep rest with
      | [] => if c = sep then [[], []] else [[c]]
      | h :: t => if c = sep then [] :: h :: t else (c :: h) :: t


/-- JavaScript String.split on a regex matching maximal runs of a
character class (the same shape as the whitespace split). -/
def jsSplitRuns (p : Char → Bool) : Str → List Str
  | [] => [[]]
  | c :: rest =>
      if p c then
        match rest with
        | [] => [[], []]
        | d :: _ =>
            if p d then jsSplitRuns p rest else [] :: jsSplitRuns p rest
      else
        match jsSplitRuns p rest with
        | [] => [[c]]
        | h :: t => (c :: h) :: t


/-- Split on runs of at least three newlines (the hashbuster split of
pattern.ts line 188); fuel-driven scan, the fuel is the string length. -/
def splitNl3Aux (fuel : Nat) (s : Str) : List Str :=
  match fuel, s with
  | 0, _ => [[]]
  | _, [] => [[]]
  | fuel + 1, c :: rest =>
      if c = '\n' && (rest.head? == some '\n') && ((rest.drop 1).head? == some '\n')
      then [] :: splitNl3Aux fuel (rest.dropWhile (· = '\n'))
      else
        match splitNl3Aux fuel rest with
        | [] => [[c]]
        | h :: t => (c :: h) :: t


def splitNl3 (s : Str) : List Str := splitNl3Aux (s.length + 1) s


/-- The reply or forward subject test of pattern.ts line 39. -/
def isReplyFwdSubject (s : Str) : Bool :=
  [str "re:", str "fw:", str "fwd:", str "aw:", str "tr:", str "sv:"].any
    (fun p => p.isPrefixOf (lowerStr s))


/-- The bracketed-tag subject test of pattern.ts line 40: an opening
bracket with a closing bracket after it on the same line (the dot of the
regex does not cross a newline). -/
def hasBracketTag : Str → Bool
  | [] => false
  | c :: rest =>
      if c = '[' then
        ((rest.takeWhile (· ≠ '\n')).any (· = ']')) || hasBracketTag rest
      else hasBracketTag rest


/-- Fold a nonempty list of alternatives into one regex. -/
def altList : List Rx → Rx
  | [] => Rx.none
  | [r] => r
  | r :: rest => .alt r (altList rest)


/-- The notification openers of pattern.ts lines 54 to 63, each anchored
at the start of the first body line. -/
def notifRx : List Rx :=
  [.cat (altList [litCI "you've", litCI "you have"])
     (.cat (chC ' ') (altList [litCI "been", litCI "received", litCI "been granted"])),
   .cat (altList [litCI "your", litCI "this"])
     (.cat (chC ' ')
       (.cat (altList [litCI "order", litCI "invoice", litCI "ticket",
          litCI "request", litCI "support"]) (chC ' '))),
   .cat (altList [litCI "payment", litCI "shipping", litCI "delivery"])
     (.cat (chC ' ') (altList [litCI "is", litCI "has", litCI "for"])),
   .cat (altList [litCI "password", litCI "account", litCI "security"])
     (.cat (chC ' ') (altList [litCI "reset", litCI "update", litCI "notification"])),
   .cat (altList [litCI "weekly", litCI "daily", litCI "monthly"])
     (.cat (chC ' ') (altList [litCI "digest", litCI "summary", litCI "report"])),
   .cat (altList [litCI "new", litCI "latest", litCI "recent"])
     (.cat (chC ' ')
       (.cat (altList [litCI "commit", litCI "pull request", litCI "issue",
          litCI "PR"]) (chC ' '))),
   .cat (altList [litCI "ticket", litCI "order", litCI "invoice"])
     (.cat (chC ' ') (chC '#')),
   .cat (altList [litCI "hi", litCI "hello"]) (chC ' ')]


def headD (l : List Str) : Str :=
  match l with
  | [] => []
  | h :: _ => h


/-- The NO_GREETING suppression of pattern.ts lines 34 to 78. -/
def noGreetingSkip (subject bodyText : Str) : Bool :=
  isReplyFwdSubject subject || hasBracketTag subject ||
    (let firstLine := trimStr (headD (jsSplitChar '\n' bodyText))
     firstLine.head? == some '@'
       || notifRx.any (fun r => r.testStart firstLine)
       || (decide (0 < firstLine.length) && decide (firstLine.length < 50)
            && !firstLine.any (· = ',')))


/-- The invisible character class of utils/text.ts hasInvisibleChars. -/
def isInvisibleChar (c : Char) : Bool :=
  (0x200B ≤ c.val && c.val ≤ 0x200D) || c.val = 0x2060 || c.val = 0xFEFF
    || c.val = 0x00AD


def hasInvisibleCharsM (s : Str) : Bool := s.any isInvisibleChar


def isCyrillicChar (c : Char) : Bool :=
  (0x430 ≤ c.val && c.val ≤ 0x44F) || (0x410 ≤ c.val && c.val ≤ 0x42F)
    || c.val = 0x451 || c.val = 0x401


def isGreekChar (c : Char) : Bool :=
  (0x3B1 ≤ c.val && c.val ≤ 0x3C9) || (0x391 ≤ c.val && c.val ≤ 0x3A9)


/-- utils/text.ts hasMixedScripts: more than one of the Latin, Cyrillic
and Greek scripts present. -/
def hasMixedScriptsM (s : Str) : Bool :=
  ([s.any isAsciiLetter, s.any isCyrillicChar, s.any isGreekChar].filter
    (fun b => b)).length > 1


/-- The duplicate counting loop of pattern.ts lines 161 to 171. -/
def dupCount (sentences : List Str) : Nat :=
  (sentences.foldl
    (fun (p : List Str × Nat) s =>
      let normalized := lowerStr (trimStr s)
      if p.1.any (· = normalized) then (p.1, p.2 + 1)
      else (p.1 ++ [normalized], p.2)) ([], 0)).2


/-- pattern.ts analyzePatterns. Parameters: execP is the per-pattern
regex exec outcome on a fresh lastIndex (the cross-call lastIndex state
is modelled separately for claim C4); entropy models the floating-point
calculateEntropy; urgencyCnt models the count of urgency regex matches;
htmlToText models extractTextFromHtml. -/
def analyzePatterns (execP : String → Str → Bool) (entropy : Str → ℚ)
    (urgencyCnt : Str → Nat) (htmlToText : Str → Str) (e : ParsedEmailM) : Acc :=
  let textBody := e.textBody
  let htmlText := if e.htmlBody.isEmpty then [] else htmlToText e.htmlBody
  let allText := e.subject ++ [' '] ++ textBody ++ [' '] ++ htmlText
  let bodyText := trimStr (if !textBody.isEmpty then textBody else htmlText)
  let a1 := ALL_PATTERNS_M.foldl (fun a pr =>
      let textToCheck :=
        if pr.1 = "NO_GREETING" || pr.1 = "GENERIC_GREETING" then bodyText
        else allText
      if pr.1 = "NO_GREETING" && noGreetingSkip e.subject bodyText then a
      else if execP pr.1 textToCheck then a.push pr.1 pr.2
      else a) Acc.empty
  let a2 := if hasInvisibleCharsM allText then a1.push "INVISIBLE_CHARS" 1 else a1
  let a3 := if hasMixedScriptsM allText then a2.push "MIXED_SCRIPTS" 1 else a2
  let words := (jsSplitWs allText).filter (fun w => w.length > 5)
  let highEntropyWords :=
    ((words.take 100).filter (fun w => decide (entropy (lowerStr w) > 45/10))).length
  let a4 := if words.length > 20
      && decide ((highEntropyWords : ℚ) / (words.length : ℚ) > 4/10) then
      a3.push "WORD_SALAD" (5/10) else a3
  let sentences := (jsSplitRuns (fun c => c = '.' || c = '!' || c = '?') allText).filter
      (fun s => (trimStr s).length > 20)
  let duplicateSentences := dupCount sentences
  let a5 := if sentences.length > 5
      && decide ((duplicateSentences : ℚ) / (sentences.length : ℚ) > 3/10) then
      a4.push "CHAR_STUFFING" (5/10) else a4
  let parts := splitNl3 allText
  let lastPart := trimStr (headD parts.reverse)
  let a6 := if decide (parts.length > 1) && decide (lastPart.length > 100)
      && decide (entropy lastPart > 5) then
      a5.push "HIGH_ENTROPY_FOOTER" (5/10) else a5
  let a7 := if urgencyCnt allText ≥ 3 then a6.push "MULTIPLE_URGENCY" 1 else a6
  a7


-- ===========================================================================
-- data/url-blacklist.ts and the URL analyzer (its source is reproduced in
-- full in the README of the repository)
-- ===========================================================================

/-- data/url-blacklist.ts SUSPICIOUS_TLDS. -/
def SUSPICIOUS_TLDS_M : List Str :=
  [str "zip", str "mov", str "top", str "xyz", str "work", str "click",
   str "link", str "gq", str "ml", str "cf", str "ga", str "tk", str "buzz",
   str "icu", str "best", str "monster", str "rest", str "cyou", str "cfd",
   str "sbs", str "quest", str "cam", str "bond", str "bid", str "trade",
   str "review", str "party", str "download", str "racing", str "win",
   str "loan", str "cricket", str "science", str "date", str "faith",
   str "accountant", str "stream", str "gdn", str "men", str "webcam",
   str "adult", str "porn", str "xxx", str "sex", str "ru", str "cn",
   str "cc", str "su", str "pw"]


/-- data/url-blacklist.ts URL_SHORTENERS. -/
def URL_SHORTENERS_M : List Str :=
  [str "bit.ly", str "tinyurl.com", str "goo.gl", str "t.co", str "ow.ly",
   str "is.gd", str "buff.ly", str "j.mp", str "adf.ly", str "cur.lv",
   str "tiny.cc", str "shorte.st", str "bc.vc", str "v.gd", str "po.st",
   str "u.to", str "cutt.ly", str "shorturl.at", str "rb.gy", str "t.ly",
   str "rebrand.ly", str "clck.ru", str "shorturl.asia", str "mcaf.ee",
   str "su.pr", str "clicky.me", str "budurl.com", str "soo.gd", str "x.co",
   str "yourls.org", str "urlz.fr", str "qr.net", str "url.ie", str "zpr.io"]


/-- data/url-blacklist.ts LEGITIMATE_DOMAINS. -/
def LEGITIMATE_DOMAINS_M : List Str :=
  [str "google.com", str "gmail.com", str "youtube.com", str "facebook.com",
   str "twitter.com", str "instagram.com", str "linkedin.com",
   str "microsoft.com", str "apple.com", str "amazon.com", str "github.com",
   str "gitlab.com", str "bitbucket.org", str "stackoverflow.com",
   str "wikipedia.org", str "reddit.com", str "dropbox.com", str "slack.com",
   str "zoom.us", str "paypal.com", str "stripe.com", str "shopify.com",
   str "salesforce.com", str "cloudflare.com", str "aws.amazon.com",
   str "azure.microsoft.com"]


/-- The names and scores of data/url-blacklist.ts SPAM_DOMAIN_PATTERNS in
order; the regexes themselves are parameters of the analyzer. -/
def SPAM_DOMAIN_PATTERNS_M : List (String × ℚ) :=
  [("PAYPAL_TYPO", 5/2), ("APPLE_TYPO", 2), ("AMAZON_TYPO", 2),
   ("GOOGLE_TYPO", 2), ("MICROSOFT_TYPO", 2), ("FACEBOOK_TYPO", 2),
   ("NETFLIX_TYPO", 2), ("PHISHY_SUBDOMAIN", 3/2),
   ("PHISHY_SUBDOMAIN_MID", 9/5), ("PHISHY_KEYWORD_DASH", 3/2),
   ("MANY_DIGITS", 4/5), ("VERY_LONG_DOMAIN", 1), ("FREE_HOSTING", 1/2),
   ("FREE_BLOG", 3/10)]


/-- The names and scores of data/url-blacklist.ts SUSPICIOUS_PATH_PATTERNS
in order. -/
def SUSPICIOUS_PATH_PATTERNS_M : List (String × ℚ) :=
  [("EXECUTABLE_EXTENSION", 5/2), ("ARCHIVE_EXTENSION", 1),
   ("PHP_WITH_PARAMS", 4/5), ("WORDPRESS_EXPLOIT_PATH", 3/2),
   ("PHISHY_PHP", 6/5), ("ENCODED_CHARS", 1), ("CONTROL_CHARS", 2),
   ("DOUBLE_SLASH", 1)]


/-- Join domain labels with dots. -/
def joinDot (l : List Str) : Str := List.intercalate (str ".") l


/-- data/url-blacklist.ts getRootDomain with the compound TLD special
cases. -/
def getRootDomain (domain : Str) : Str :=
  let parts := jsSplitChar '.' (lowerStr domain)
  if parts.length ≤ 2 then lowerStr domain
  else
    let tld := joinDot (parts.drop (parts.length - 2))
    let compound := [str "co.uk", str "com.au", str "co.nz", str "co.jp",
      str "com.br", str "co.in"]
    if compound.any (· = tld) && parts.length > 2 then
      joinDot (parts.drop (parts.length - 3))
    else joinDot (parts.drop (parts.length - 2))


/-- data/url-blacklist.ts getTld. -/
def getTld (domain : Str) : Str :=
  headD (jsSplitChar '.' (lowerStr domain)).reverse


/-- types.ts UrlInfo. -/
structure UrlInfoM where
  original : Str
  domain : Str
  tld : Str
  path : Str
  query : Str
  isIpAddress : Bool
  isSuspiciousTld : Bool
  hasPortNumber : Bool
  isShortener : Bool
  encodedChars : Bool


/-- A percent escape: percent sign and two hex digits (case insensitive). -/
def pctRx : Rx :=
  .cat (chC '%')
    (.cat (.cls (fun c => c.isDigit || ('a' ≤ c.toLower && c.toLower ≤ 'f')))
      (.cls (fun c => c.isDigit || ('a' ≤ c.toLower && c.toLower ≤ 'f'))))


/-- Collect the non-overlapping matches of a global regex as substrings. -/
def extractRxMatchesAux (r : Rx) (s : Str) : Nat → Nat → List Str
  | 0, _ => []
  | fuel + 1, i =>
      match r.searchFrom s i with
      | some (a, b) =>
          ((s.drop a).take (b - a)) ::
            extractRxMatchesAux r s fuel (if b = a then a + 1 else b)
      | Option.none => []


def extractRxMatches (r : Rx) (s : Str) : List Str :=
  extractRxMatchesAux r s (s.length + 1) 0


/-- The character class of the URL pattern of utils/text.ts extractUrls:
everything except whitespace and the stop characters. -/
def urlBodyChar (c : Char) : Bool :=
  !(isWs c || c = '<' || c = '>' || c = '"' || c.val = 39 || c = ')' || c = ']')


/-- The URL pattern of utils/text.ts line 47 (flags g and i). -/
def urlRx : Rx :=
  .cat (litCI "http") (.cat (rxOpt (chCI 's'))
    (.cat (litCS "://") (rxPlus (.cls urlBodyChar))))


/-- utils/text.ts extractUrls: match the URL pattern globally, then strip
trailing punctuation from each match. -/
def extractUrls (text : Str) : List Str :=
  (extractRxMatches urlRx text).map
    (fun u => (u.reverse.dropWhile
      (fun c => c = '.' || c = ',' || c = ';' || c = ':' || c = '!'
        || c = '?' || c = ')')).reverse)


/-- Set-based dedup preserving first-occurrence order. -/
def dedupStr (l : List Str) : List Str :=
  l.foldl (fun acc u => if acc.any (· = u) then acc else acc ++ [u]) []


/-- First matching pattern of an indexed pattern list, with its name and
score; test i s models the regex test of row i. -/
def firstPat (test : Nat → Str → Bool) : Nat → List (String × ℚ) → Str →
    Option (String × ℚ)
  | _, [], _ => Option.none
  | i, pr :: rest, s => if test i s then some pr else firstPat test (i + 1) rest s


/-- The per root domain body of the URL loop of the analyzer: dedup by
root domain, skip allowlisted root domains entirely, otherwise apply each
penalty. The state carries the accumulator and the checked root domains. -/
def urlDomainStep (dp pp : Nat → Str → Bool) (p : Acc × List Str)
    (u : UrlInfoM) : Acc × List Str :=
  let root := getRootDomain u.domain
  if p.2.any (· = root) then p
  else
    let seen := p.2 ++ [root]
    if LEGITIMATE_DOMAINS_M.any (· = root) then (p.1, seen)
    else
      let a1 := Acc.pushIf u.isIpAddress p.1 "IP_ADDRESS_URL" (5/2)
      let a2 := Acc.pushIf u.isSuspiciousTld a1 "SUSPICIOUS_TLD" (3/2)
      let a3 := Acc.pushIf u.isShortener a2 "URL_SHORTENER" 1
      let a4 := Acc.pushIf u.hasPortNumber a3 "URL_WITH_PORT" (3/2)
      let a5 := Acc.pushIf (u.encodedChars && countRxMatches pctRx u.original > 3)
        a4 "ENCODED_URL" (12/10)
      let a6 := Acc.pushOpt (firstPat dp 0 SPAM_DOMAIN_PATTERNS_M u.domain)
        "PHISHING_DOMAIN_" a5
      let a7 := Acc.pushOpt
        (firstPat pp 0 SUSPICIOUS_PATH_PATTERNS_M (u.path ++ u.query))
        "SUSPICIOUS_PATH_" a6
      let subdomains := jsSplitChar '.' u.domain
      let a8 := Acc.pushIf (subdomains.length > 4) a7 "MANY_SUBDOMAINS" 1
      let a9 := Acc.pushIf ((subdomains.take (subdomains.length - 2)).any
        (fun sub => sub.length > 20)) a8 "LONG_SUBDOMAIN" 1
      (a9, seen)


/-- The URL analyzer from the many-URLs check onward: the MANY_URLS count
is taken over all parsed URLs before any allowlist filtering, then the
per root domain loop runs, then one flag per mismatched anchor. -/
def analyzeUrlsCore (dp pp : Nat → Str → Bool) (parsedUrls : List UrlInfoM)
    (mismatched : List (Str × Str)) : Acc :=
  let a1 := if parsedUrls.length > 10 then Acc.empty.push "MANY_URLS" 1
    else Acc.empty
  let a2 := (parsedUrls.foldl (urlDomainStep dp pp) (a1, [])).1
  mismatched.foldl (fun a _m => a.push "MISMATCHED_LINK_TEXT" 2) a2


/-- The URL analyzer: extraction from the three text sources, Set dedup,
the 50 URL cap, parsing (the WHATWG URL parser is a parameter), then the
core; the mismatched anchor scan (a parameter, regex driven) runs only
when an html body is present. -/
def analyzeUrls (parseU : Str → Option UrlInfoM) (htmlToText : Str → Str)
    (findMism : Str → List (Str × Str)) (dp pp : Nat → Str → Bool)
    (e : ParsedEmailM) : Acc :=
  let allUrls := dedupStr (extractUrls e.textBody ++ extractUrls e.htmlBody
    ++ extractUrls (htmlToText e.htmlBody))
  let parsedUrls := (allUrls.take 50).filterMap parseU
  let mismatched := if !e.htmlBody.isEmpty then findMism e.htmlBody else []
  analyzeUrlsCore dp pp parsedUrls mismatched


/-- The anchored IP literal pattern of data/url-blacklist.ts line 163. -/
def ipUrlRx : Rx :=
  .cat (litCS "http") (.cat (rxOpt (chC 's')) (.cat (litCS "://")
    (.cat (rep1to3 rxDigit) (.cat (chC '.')
      (.cat (rep1to3 rxDigit) (.cat (chC '.')
        (.cat (rep1to3 rxDigit) (.cat (chC '.') (rep1to3 rxDigit)))))))))


/-- Modelled from the spec: the WHATWG URL parse performed by new URL in
parseUrl of the analyzer, for plain absolute http or https URLs of the
form scheme, host, optional port, optional slash path, without userinfo
or fragments; the flag fields are computed exactly as parseUrl computes
them from the tables above. Returns nothing for other shapes. -/
def demoParseUrl (u : Str) : Option UrlInfoM :=
  let lowered := lowerStr u
  if (str "http://").isPrefixOf lowered || (str "https://").isPrefixOf lowered
  then
    let rest := if (str "https://").isPrefixOf lowered then u.drop 8 else u.drop 7
    let hostPort := rest.takeWhile (· ≠ '/')
    let path := rest.dropWhile (· ≠ '/')
    let host := lowerStr (hostPort.takeWhile (· ≠ ':'))
    let port := (hostPort.dropWhile (· ≠ ':')).drop 1
    if host.isEmpty then Option.none
    else some
      { original := u
        domain := host
        tld := getTld host
        path := if path.isEmpty then str "/" else path
        query := []
        isIpAddress := ipUrlRx.testStart u
        isSuspiciousTld := SUSPICIOUS_TLDS_M.any (· = getTld host)
        hasPortNumber := !port.isEmpty && port ≠ str "80" && port ≠ str "443"
        isShortener := URL_SHORTENERS_M.any (· = host)
          || URL_SHORTENERS_M.any (· = getRootDomain host)
        encodedChars := pctRx.test u }
  else Option.none


/-- b extends a when b carries the matches of a plus appended ones. -/
def Acc.Extends (a b : Acc) : Prop := ∃ l, b.matchList = a.matchList ++ l


/-- The body listing eleven distinct URLs all on the allowlisted root
domain google.com. -/
def c9Body : Str := str
  "http://google.com/1 http://google.com/2 http://google.com/3 http://google.com/4 http://google.com/5 http://google.com/6 http://google.com/7 http://google.com/8 http://google.com/9 http://google.com/10 http://google.com/11"


def c9Email : ParsedEmailM := { emptyParsedEmail with textBody := c9Body }


/-- A parsed URL on the allowlisted root domain google.com. -/
def googleInfo : UrlInfoM :=
  { original := str "http://google.com/1", domain := str "google.com"
    tld := str "com", path := str "/1", query := []
    isIpAddress := false, isSuspiciousTld := false, hasPortNumber := false
    isShortener := false, encodedChars := false }


-- ===========================================================================
-- The scores-in-sync and nonnegativity invariants of the accumulators
-- ===========================================================================

/-- The invariant of claim C8 for the unfloored analyzers: the score is
the sum of the match scores and is nonnegative. -/
def Acc.Good (a : Acc) : Prop := a.Synced ∧ 0 ≤ a.score


-- ===========================================================================
-- The engine: running the six analyzers (engine.ts lines 44 to 51)
-- ===========================================================================

/-- All external inputs of the six analyzers: the clock, both regex
oracles left abstract, the language datasets absent from src/, and the
WHATWG URL parser. -/
structure Oracles where
  forged : Str → Bool
  now : ℤ
  contentData : ContentData
  htmlToText : Str → Str
  execP : String → Str → Bool
  entropy : Str → ℚ
  urgencyCnt : Str → Nat
  htmlTests : HtmlTests
  parseU : Str → Option UrlInfoM
  findMism : Str → List (Str × Str)
  dp : Nat → Str → Bool
  pp : Nat → Str → Bool
  bayesTable : TokenTable


/-- engine.ts lines 44 to 51: the six analyzer scores in source order
(headers, content, urls, html, patterns, bayesian). -/
def engineAnalyzerScores (o : Oracles) (e : ParsedEmailM) : List ℚ :=
  [(analyzeHeaders o.forged o.now e).score,
   (analyzeContent o.contentData o.htmlToText e).score,
   (analyzeUrls o.parseU o.htmlToText o.findMism o.dp o.pp e).score,
   ((analyzeHtml o.htmlTests e.htmlBody).1).score,
   (analyzePatterns o.execP o.entropy o.urgencyCnt o.htmlToText e).score,
   ((analyzeBayesian o.bayesTable o.htmlToText e).acc).score]


/-- A concrete oracle assignment: empty datasets, all regex oracles
reporting no match, the zero clock. -/
def trivialOracles : Oracles :=
  { forged := fun _ => false, now := 0
    contentData := ⟨[], [], [], []⟩
    htmlToText := fun _ => []
    execP := fun _ _ => false, entropy := fun _ => 0
    urgencyCnt := fun _ => 0
    htmlTests := trivialHtmlTests
    parseU := fun _ => Option.none
    findMism := fun _ => []
    dp := fun _ _ => false, pp := fun _ _ => false
    bayesTable := [] }

-- ===========================================================================
-- Theorems
-- ===========================================================================


-- Helper lemmas for claim C1.

theorem totalScore_granular (l : List ℚ)
    (h : ∀ s ∈ l, ∃ n : ℤ, s = (n : ℚ) / 100) :
    ∃ m : ℤ, totalScore l = (m : ℚ) / 100 := by
  suffices H : ∀ (init : ℚ), (∃ k : ℤ, init = (k : ℚ) / 100) →
      ∃ m : ℤ, l.foldl (· + ·) init = (m : ℚ) / 100 by
    exact H 0 ⟨0, by norm_num⟩
  induction l with
  | nil => intro init hi; simpa using hi
  | cons a t ih =>
      intro init hi
      obtain ⟨k, hk⟩ := hi
      obtain ⟨n, hn⟩ := h a (by simp)
      have ht : ∀ s ∈ t, ∃ n : ℤ, s = (n : ℚ) / 100 := fun s hs => h s (by simp [hs])
      have := ih ht (init + a) ⟨k + n, by rw [hk, hn]; push_cast; ring⟩
      simpa using this


theorem roundTo2_granular (m : ℤ) : roundTo2 ((m : ℚ) / 100) = (m : ℚ) / 100 := by
  unfold roundTo2 jsMathRound
  have h1 : ((m : ℚ) / 100) * 100 = (m : ℚ) := by ring
  rw [h1]
  have h2 : ⌊(m : ℚ) + 1/2⌋ = m := by
    rw [Int.floor_eq_iff]
    constructor <;> push_cast <;> linarith
  rw [h2]


/-- C1: threshold consistency. Provided every analyzer score is a multiple
of 1/100 (true of every rule score in the repository, which are all
multiples of 1/10), the reported rounded score equals the aggregate, so
isSpam equals (reported score at or above spamThreshold), and the value of
probableSpamThreshold never influences isSpam. -/
theorem C1_threshold_consistency (analyzerScores : List ℚ)
    (config : SpamGuardConfig)
    (h : ∀ s ∈ analyzerScores, ∃ n : ℤ, s = (n : ℚ) / 100) :
    ((buildResult analyzerScores config).isSpam =
      decide ((buildResult analyzerScores config).score ≥ config.spamThreshold))
    ∧ (∀ q : ℚ,
        (buildResult analyzerScores
          { config with probableSpamThreshold := q }).isSpam =
        (buildResult analyzerScores config).isSpam) := by
  obtain ⟨m, hm⟩ := totalScore_granular analyzerScores h
  constructor
  · simp only [buildResult, engineIsSpam, hm, roundTo2_granular]
  · intro q
    simp only [buildResult, engineIsSpam]


/-- Witness for C1 at a concrete input: one analyzer score 3.5, default
configuration. -/
theorem C1_threshold_consistency_witness :
    ((buildResult [35/10] DEFAULT_CONFIG).isSpam =
      decide ((buildResult [35/10] DEFAULT_CONFIG).score ≥
        DEFAULT_CONFIG.spamThreshold))
    ∧ (∀ q : ℚ,
        (buildResult [35/10]
          { DEFAULT_CONFIG with probableSpamThreshold := q }).isSpam =
        (buildResult [35/10] DEFAULT_CONFIG).isSpam) :=
  C1_threshold_consistency [35/10] DEFAULT_CONFIG
    (by
      intro s hs
      simp only [List.mem_singleton] at hs
      exact ⟨350, by rw [hs]; norm_num⟩)


/-- C2: the classification is derived from the aggregate score by the
exact ordered chain of the specification (first match wins), with the
ham versus probable_ham boundary a fixed literal 1.0: the code function
equals the specification function everywhere, and for every
configuration the result is ham exactly when the score is below both
configurable thresholds and at most 1. -/
theorem C2_classification_order (total : ℚ) (config : SpamGuardConfig) :
    classify total config = classifySpec total config
    ∧ (classify total config = .ham ↔
        total < config.spamThreshold ∧ total < config.probableSpamThreshold ∧
        total ≤ 1) := by
  refine ⟨rfl, ?_⟩
  unfold classify
  split_ifs with h1 h2 h3
  · exact iff_of_false (by decide) (fun hc => absurd hc.1 (not_lt.mpr h1))
  · exact iff_of_false (by decide) (fun hc => absurd hc.2.1 (not_lt.mpr h2))
  · exact iff_of_true rfl ⟨lt_of_not_ge h1, lt_of_not_ge h2, h3⟩
  · exact iff_of_false (by decide) (fun hc => absurd hc.2.2 h3)


/-- C3: the pre floor Bayesian score is exactly the stated piecewise
function of the aggregate spam probability, the dead zone giving 0 is
exactly the probabilities in the closed interval 0.3 to 0.5, and the
reported score is the pre floor value floored at 0. -/
theorem C3_bayes_score_mapping (p : ℚ) :
    bayesRawScore p = bayesScoreSpec p
    ∧ (bayesRawScore p = 0 ↔ 3/10 ≤ p ∧ p ≤ 1/2)
    ∧ bayesReportedScore p = max 0 (bayesRawScore p) := by
  refine ⟨rfl, ?_, rfl⟩
  unfold bayesRawScore
  split_ifs with h1 h2 h3 h4 h5 h6 h7
  · exact iff_of_false (by norm_num) (fun hc => by linarith [hc.2])
  · exact iff_of_false (by norm_num) (fun hc => by linarith [hc.2])
  · exact iff_of_false (by norm_num) (fun hc => by linarith [hc.2])
  · exact iff_of_false (by norm_num) (fun hc => by linarith [hc.2])
  · exact iff_of_false (by norm_num) (fun hc => by linarith [hc.2])
  · exact iff_of_false (by norm_num) (fun hc => by linarith [hc.1])
  · exact iff_of_false (by norm_num) (fun hc => by linarith [hc.1])
  · exact iff_of_true rfl ⟨by linarith, by linarith⟩


theorem hasSub_iff (h n : Str) : hasSub h n = true ↔ n <:+: h := by
  induction h with
  | nil =>
      simp only [hasSub, List.isEmpty_iff]
      constructor
      · intro he; simp [he]
      · intro he; exact List.eq_nil_of_infix_nil he
  | cons c rest ih =>
      simp only [hasSub, Bool.or_eq_true, List.isPrefixOf_iff_prefix, ih]
      exact (List.infix_cons_iff).symm


theorem hasSub_trans (h n m : Str) (h1 : hasSub n m = true)
    (h2 : hasSub h n = true) : hasSub h m = true := by
  rw [hasSub_iff] at *
  exact h1.trans h2


theorem hasSub_softfail_fail (s : Str) (h : hasSub s (str "softfail") = true) :
    hasSub s (str "fail") = true :=
  hasSub_trans s (str "softfail") (str "fail") (by decide) h


/-- C5 counterexample: for the received-spf value "pass" none of the three
SPF rules fires, refuting that exactly one fires for every value. -/
theorem C5_spf_counterexample : spfMatches (str "pass") = [] := by decide


/-- C5 as amended: at most one SPF rule ever fires; exactly one fires
precisely when the received-spf value is empty or its lowercasing contains
"fail" or "none"; and each of the three rules fires exactly under the
condition the code tests, with first match winning. -/
theorem C5_spf_rules (s : Str) :
    (spfMatches s).length ≤ 1
    ∧ ((spfMatches s).length = 1 ↔
        (s.isEmpty || hasSub (lowerStr s) (str "fail")
          || hasSub (lowerStr s) (str "none")) = true)
    ∧ (spfMatches s = [("SPF_FAIL", 5/2)] ↔
        (hasSub (lowerStr s) (str "fail")
          && !hasSub (lowerStr s) (str "softfail")) = true)
    ∧ (spfMatches s = [("SPF_SOFTFAIL", 3/2)] ↔
        hasSub (lowerStr s) (str "softfail") = true)
    ∧ (spfMatches s = [("SPF_NONE", 1/10)] ↔
        (!hasSub (lowerStr s) (str "fail")
          && (hasSub (lowerStr s) (str "none") || s.isEmpty)) = true) := by
  by_cases hsf : hasSub (lowerStr s) (str "softfail") = true
  · have hf : hasSub (lowerStr s) (str "fail") = true :=
      hasSub_softfail_fail (lowerStr s) hsf
    simp [spfMatches, hsf, hf]
  · by_cases hf : hasSub (lowerStr s) (str "fail") = true
    · simp [spfMatches, hsf, hf]
    · by_cases hn : (hasSub (lowerStr s) (str "none") || s.isEmpty) = true
      · simp only [spfMatches, hf, hsf, hn]
        simp only [Bool.false_and, if_false, Bool.not_false, Bool.true_and]
        refine ⟨by simp, ?_, by simp, by simp, by simp [hn]⟩
        rcases Bool.or_eq_true_iff.mp hn with h | h <;> simp [h]
      · simp only [Bool.or_eq_true, not_or] at hn
        obtain ⟨hn1, hn2⟩ := hn
        simp [spfMatches, hf, hsf, hn1, hn2,
          Bool.eq_false_iff.mpr hn1, Bool.eq_false_iff.mpr hn2]


/-- C4: on the email with textBody dollar-100, the first analyze call fires
CURRENCY_AMOUNT (adding 0.5) and advances the shared lastIndex to 5; the
second call on the identical input finds no match from there, fires
nothing, and resets lastIndex, so two successive calls return different
pattern-analyzer scores. -/
theorem C4_currency_exec_state :
    currencyStep 0 = (true, 5) ∧ (currencyStep 5).1 = false ∧
      (currencyStep 0).1 ≠ (currencyStep (currencyStep 0).2).1 := by
  refine ⟨by decide, by decide, by decide⟩


theorem Acc.synced_empty : Acc.empty.Synced := by
  simp [Acc.Synced, Acc.empty, matchSum]


theorem Acc.synced_push (a : Acc) (n : String) (s : ℚ) (h : a.Synced) :
    (a.push n s).Synced := by
  simp [Acc.Synced, Acc.push, matchSum] at *
  rw [h]


theorem Acc.synced_ite (c : Prop) [Decidable c] (a b : Acc)
    (ha : a.Synced) (hb : b.Synced) : (if c then a else b).Synced := by
  split <;> assumption


theorem Acc.synced_foldl {α : Type} (l : List α) (step : Acc → α → Acc)
    (hstep : ∀ a x, a.Synced → (step a x).Synced) :
    ∀ a : Acc, a.Synced → (l.foldl step a).Synced := by
  induction l with
  | nil => intro a ha; simpa using ha
  | cons x t ih => intro a ha; exact ih (step a x) (hstep a x ha)


theorem Acc.nonneg_of_synced (a : Acc) (h : a.Synced)
    (hp : a.ScoresIn (fun s => 0 ≤ s)) : 0 ≤ a.score := by
  rw [h]
  unfold matchSum
  apply List.sum_nonneg
  intro x hx
  obtain ⟨m, hm, rfl⟩ := List.mem_map.mp hx
  exact hp m hm


theorem trimStr_all_ws (s : Str) (h : ∀ c ∈ s, isWs c = true) :
    trimStr s = [] := by
  unfold trimStr
  have h1 : s.dropWhile isWs = [] := List.dropWhile_eq_nil_iff.mpr h
  simp [h1]


/-- C10: for an html body made only of whitespace characters the HTML
analyzer returns the same zero-score, empty-match, hasHtml-false result
that it returns for an absent html body, whatever the regex tests do. -/
theorem C10_whitespace_html (t : HtmlTests) (html : Str)
    (h : ∀ c ∈ html, isWs c = true) :
    analyzeHtml t html = (Acc.empty, false)
    ∧ analyzeHtml t html = analyzeHtml t (str "") := by
  have hguard : (html.isEmpty || (trimStr html).isEmpty) = true := by
    simp [trimStr_all_ws html h]
  constructor
  · unfold analyzeHtml
    rw [hguard]
    rfl
  · unfold analyzeHtml
    rw [hguard]
    rfl


/-- Witness for C10 at the three-space html body. -/
theorem C10_whitespace_html_witness :
    (∀ c ∈ str "   ", isWs c = true)
    ∧ (analyzeHtml trivialHtmlTests (str "   ") = (Acc.empty, false)
        ∧ analyzeHtml trivialHtmlTests (str "   ") =
          analyzeHtml trivialHtmlTests (str "")) :=
  ⟨by decide, C10_whitespace_html trivialHtmlTests (str "   ") (by decide)⟩


/-- C8 counterexample: on the email with body offer and a dataset knowing
that token at spam probability 0.65, the Bayesian analyzer reports score
1.0 (aggregate probability 0.65 maps to 1.0) while its matches list is
empty, so the analyzer score is not the sum of its match scores. -/
theorem C8_bayes_score_not_match_sum :
    analyzeBayesian c8Table (fun _ => []) c8Email = ⟨⟨[], 1⟩, 13/20⟩
    ∧ (analyzeBayesian c8Table (fun _ => []) c8Email).acc.score ≠
        matchSum (analyzeBayesian c8Table (fun _ => []) c8Email).acc.matchList := by
  have h : analyzeBayesian c8Table (fun _ => []) c8Email = ⟨⟨[], 1⟩, 13/20⟩ := by
    with_unfolding_all rfl
  refine ⟨h, ?_⟩
  rw [h]
  norm_num [matchSum]


/-- C7 counterexample: adding one occurrence of the dataset spam phrase
free-money-offer (score 0.5) to the empty body lowers the content
analyzer score from 1.0 to 0.5, because the added occurrence also turns
off the EMPTY_BODY rule (score 1.0). Monotonicity fails. -/
theorem C7_monotonicity_counterexample :
    (analyzeContent c7Data (fun _ => []) c7Email1).score = 1
    ∧ (analyzeContent c7Data (fun _ => []) c7Email2).score = 1/2
    ∧ (analyzeContent c7Data (fun _ => []) c7Email2).score <
        (analyzeContent c7Data (fun _ => []) c7Email1).score := by
  have h1 : (analyzeContent c7Data (fun _ => []) c7Email1).score = 1 := by
    with_unfolding_all rfl
  have h2 : (analyzeContent c7Data (fun _ => []) c7Email2).score = 1/2 := by
    with_unfolding_all rfl
  refine ⟨h1, h2, ?_⟩
  rw [h1, h2]
  norm_num


theorem phraseSum_mono (d : List SpamWordM) (allT1 norm1 allT2 norm2 : Str)
    (ha : allT1 <:+: allT2) (hn : norm1 <:+: norm2)
    (hs : ∀ w ∈ d, 0 ≤ w.score) :
    phraseSum d allT1 norm1 ≤ phraseSum d allT2 norm2 := by
  induction d with
  | nil => simp [phraseSum]
  | cons w rest ih =>
      have hw := hs w (by simp)
      have hrest := ih (fun x hx => hs x (by simp [hx]))
      unfold phraseSum
      have hstep : (if spamWordHit allT1 norm1 w then w.score else 0) ≤
          (if spamWordHit allT2 norm2 w then w.score else 0) := by
        by_cases h1 : spamWordHit allT1 norm1 w
        · have h2 : spamWordHit allT2 norm2 w = true := by
            unfold spamWordHit at *
            cases hcs : w.caseSensitive <;> simp only [hcs] at h1 ⊢ <;>
              simp only [Bool.false_eq_true, if_false, if_true] at h1 ⊢
            · exact hasSub_trans norm2 norm1 (lowerStr w.word)
                h1 ((hasSub_iff norm2 norm1).mpr hn)
            · exact hasSub_trans allT2 allT1 w.word
                h1 ((hasSub_iff allT2 allT1).mpr ha)
          rw [if_pos h1, if_pos h2]
        · rw [if_neg h1]
          split
          · exact hw
          · exact le_refl (0 : ℚ)
      linarith


theorem hamSum_antimono (h : List (Str × ℚ)) (norm1 norm2 : Str)
    (hn : norm1 <:+: norm2) (hs : ∀ hw ∈ h, hw.2 ≤ 0) :
    hamSum h norm2 ≤ hamSum h norm1 := by
  induction h with
  | nil => simp [hamSum]
  | cons hw rest ih =>
      have hw0 := hs hw (by simp)
      have hrest := ih (fun x hx => hs x (by simp [hx]))
      unfold hamSum
      have hstep : (if hasSub norm2 hw.1 then hw.2 else 0) ≤
          (if hasSub norm1 hw.1 then hw.2 else 0) := by
        by_cases h1 : hasSub norm1 hw.1
        · have h2 : hasSub norm2 hw.1 = true :=
            hasSub_trans norm2 norm1 hw.1 h1 ((hasSub_iff norm2 norm1).mpr hn)
          rw [if_pos h2, if_pos h1]
        · rw [if_neg h1]
          split
          · exact hw0
          · exact le_refl (0 : ℚ)
      linarith


theorem spamPhrasePass_score (d : List SpamWordM) (allT norm : Str) (a : Acc) :
    (spamPhrasePass d allT norm a).score = a.score + phraseSum d allT norm := by
  induction d generalizing a with
  | nil => simp [spamPhrasePass, phraseSum]
  | cons w rest ih =>
      unfold spamPhrasePass at *
      simp only [List.foldl_cons, phraseSum]
      rw [ih]
      unfold spamPhraseStep
      split <;> simp [Acc.push] <;> ring


theorem hamPass_score (h : List (Str × ℚ)) (norm : Str) (a : Acc) :
    (hamPass h norm a).score = a.score + hamSum h norm := by
  induction h generalizing a with
  | nil => simp [hamPass, hamSum]
  | cons hw rest ih =>
      unfold hamPass at *
      simp only [List.foldl_cons, hamSum]
      rw [ih]
      unfold hamStep
      split <;> simp [Acc.push] <;> ring


/-- C7 as amended: what does hold is monotonicity of the phrase passes in
isolation. When the combined text and the normalized text both only grow
(the old text is a contiguous part of the new one), the spam phrase loop
contribution never decreases (for nonnegative dataset phrase scores) and
the ham phrase loop contribution never increases (for nonpositive ham
adjustments); each pass adds exactly its contribution to the running
score. The full analyzer score is not monotone, because length-triggered
rules such as EMPTY_BODY can switch off when text is added. -/
theorem C7_phrase_monotonicity (d : ContentData)
    (allT1 norm1 allT2 norm2 : Str) (a : Acc)
    (ha : allT1 <:+: allT2) (hn : norm1 <:+: norm2)
    (hs : ∀ w ∈ d.spamWords, 0 ≤ w.score)
    (hh : ∀ hw ∈ d.hamWords, hw.2 ≤ 0) :
    phraseSum d.spamWords allT1 norm1 ≤ phraseSum d.spamWords allT2 norm2
    ∧ hamSum d.hamWords norm2 ≤ hamSum d.hamWords norm1
    ∧ (spamPhrasePass d.spamWords allT1 norm1 a).score =
        a.score + phraseSum d.spamWords allT1 norm1
    ∧ (hamPass d.hamWords norm1 a).score =
        a.score + hamSum d.hamWords norm1 :=
  ⟨phraseSum_mono d.spamWords allT1 norm1 allT2 norm2 ha hn hs,
    hamSum_antimono d.hamWords norm1 norm2 hn hh,
    spamPhrasePass_score d.spamWords allT1 norm1 a,
    hamPass_score d.hamWords norm1 a⟩


/-- Witness for C7 as amended, at the c7 dataset and texts. -/
theorem C7_phrase_monotonicity_witness :
    ((str "x ") <:+: (str "x free money offer"))
    ∧ (∀ w ∈ c7Data.spamWords, 0 ≤ w.score)
    ∧ (phraseSum c7Data.spamWords (str "x ") (str "x") ≤
        phraseSum c7Data.spamWords (str "x free money offer")
          (str "x free money offer")) := by
  have hinf : (str "x ") <:+: (str "x free money offer") := by
    refine ⟨[], str "free money offer", by decide⟩
  have hinf2 : (str "x") <:+: (str "x free money offer") := by
    refine ⟨[], str " free money offer", by decide⟩
  have hs : ∀ w ∈ c7Data.spamWords, 0 ≤ w.score := by
    intro w hw
    simp only [c7Data, List.mem_singleton] at hw
    rw [hw]
    norm_num
  have hh : ∀ hw ∈ c7Data.hamWords, hw.2 ≤ 0 := by
    intro hw h
    simp [c7Data] at h
  exact ⟨hinf, hs,
    (C7_phrase_monotonicity c7Data (str "x ") (str "x")
      (str "x free money offer") (str "x free money offer") Acc.empty
      hinf hinf2 hs hh).1⟩


/-- On the empty email the header analyzer fires SPF_NONE 0.1, DKIM_NONE
0.0, MISSING_FROM 2.0, MISSING_DATE 0.1, MISSING_MESSAGE_ID 0.1 and
TO_NO_RECIPIENT 1.5, for a header score of 3.8, independently of the
clock and of the forged-hop regex. -/
theorem analyzeHeaders_empty (forged : Str → Bool) (now : ℤ) :
    analyzeHeaders forged now emptyParsedEmail =
      ⟨[("SPF_NONE", 1/10), ("DKIM_NONE", 0), ("MISSING_FROM", 2),
        ("MISSING_DATE", 1/10), ("MISSING_MESSAGE_ID", 1/10),
        ("TO_NO_RECIPIENT", 3/2)], 38/10⟩ := by
  have h1 : hdrSpf emptyParsedEmail = ⟨[("SPF_NONE", 1/10)], 1/10⟩ := by
    with_unfolding_all rfl
  have h2 : hdrDkim emptyParsedEmail ⟨[("SPF_NONE", 1/10)], 1/10⟩ =
      ⟨[("SPF_NONE", 1/10), ("DKIM_NONE", 0)], 1/10⟩ := by
    with_unfolding_all rfl
  have h3 : hdrDmarc emptyParsedEmail ⟨[("SPF_NONE", 1/10), ("DKIM_NONE", 0)], 1/10⟩ =
      ⟨[("SPF_NONE", 1/10), ("DKIM_NONE", 0)], 1/10⟩ := by
    with_unfolding_all rfl
  have h4 : hdrFrom emptyParsedEmail ⟨[("SPF_NONE", 1/10), ("DKIM_NONE", 0)], 1/10⟩ =
      ⟨[("SPF_NONE", 1/10), ("DKIM_NONE", 0), ("MISSING_FROM", 2)], 21/10⟩ := by
    with_unfolding_all rfl
  have h5 : hdrDate now emptyParsedEmail
        ⟨[("SPF_NONE", 1/10), ("DKIM_NONE", 0), ("MISSING_FROM", 2)], 21/10⟩ =
      ⟨[("SPF_NONE", 1/10), ("DKIM_NONE", 0), ("MISSING_FROM", 2),
        ("MISSING_DATE", 1/10)], 22/10⟩ := by
    with_unfolding_all rfl
  have h6 : hdrMsgId emptyParsedEmail
        ⟨[("SPF_NONE", 1/10), ("DKIM_NONE", 0), ("MISSING_FROM", 2),
          ("MISSING_DATE", 1/10)], 22/10⟩ =
      ⟨[("SPF_NONE", 1/10), ("DKIM_NONE", 0), ("MISSING_FROM", 2),
        ("MISSING_DATE", 1/10), ("MISSING_MESSAGE_ID", 1/10)], 23/10⟩ := by
    with_unfolding_all rfl
  have h7 : hdrReceived emptyParsedEmail
        ⟨[("SPF_NONE", 1/10), ("DKIM_NONE", 0), ("MISSING_FROM", 2),
          ("MISSING_DATE", 1/10), ("MISSING_MESSAGE_ID", 1/10)], 23/10⟩ =
      ⟨[("SPF_NONE", 1/10), ("DKIM_NONE", 0), ("MISSING_FROM", 2),
        ("MISSING_DATE", 1/10), ("MISSING_MESSAGE_ID", 1/10)], 23/10⟩ := by
    with_unfolding_all rfl
  have h8 : hdrForged forged emptyParsedEmail
        ⟨[("SPF_NONE", 1/10), ("DKIM_NONE", 0), ("MISSING_FROM", 2),
          ("MISSING_DATE", 1/10), ("MISSING_MESSAGE_ID", 1/10)], 23/10⟩ =
      ⟨[("SPF_NONE", 1/10), ("DKIM_NONE", 0), ("MISSING_FROM", 2),
        ("MISSING_DATE", 1/10), ("MISSING_MESSAGE_ID", 1/10)], 23/10⟩ := by
    with_unfolding_all rfl
  have h9 : hdrReplyTo emptyParsedEmail
        ⟨[("SPF_NONE", 1/10), ("DKIM_NONE", 0), ("MISSING_FROM", 2),
          ("MISSING_DATE", 1/10), ("MISSING_MESSAGE_ID", 1/10)], 23/10⟩ =
      ⟨[("SPF_NONE", 1/10), ("DKIM_NONE", 0), ("MISSING_FROM", 2),
        ("MISSING_DATE", 1/10), ("MISSING_MESSAGE_ID", 1/10)], 23/10⟩ := by
    with_unfolding_all rfl
  have h10 : hdrReturnPath emptyParsedEmail
        ⟨[("SPF_NONE", 1/10), ("DKIM_NONE", 0), ("MISSING_FROM", 2),
          ("MISSING_DATE", 1/10), ("MISSING_MESSAGE_ID", 1/10)], 23/10⟩ =
      ⟨[("SPF_NONE", 1/10), ("DKIM_NONE", 0), ("MISSING_FROM", 2),
        ("MISSING_DATE", 1/10), ("MISSING_MESSAGE_ID", 1/10)], 23/10⟩ := by
    with_unfolding_all rfl
  have h11 : hdrMailer emptyParsedEmail
        ⟨[("SPF_NONE", 1/10), ("DKIM_NONE", 0), ("MISSING_FROM", 2),
          ("MISSING_DATE", 1/10), ("MISSING_MESSAGE_ID", 1/10)], 23/10⟩ =
      ⟨[("SPF_NONE", 1/10), ("DKIM_NONE", 0), ("MISSING_FROM", 2),
        ("MISSING_DATE", 1/10), ("MISSING_MESSAGE_ID", 1/10)], 23/10⟩ := by
    with_unfolding_all rfl
  have h12 : hdrFreemail emptyParsedEmail
        ⟨[("SPF_NONE", 1/10), ("DKIM_NONE", 0), ("MISSING_FROM", 2),
          ("MISSING_DATE", 1/10), ("MISSING_MESSAGE_ID", 1/10)], 23/10⟩ =
      ⟨[("SPF_NONE", 1/10), ("DKIM_NONE", 0), ("MISSING_FROM", 2),
        ("MISSING_DATE", 1/10), ("MISSING_MESSAGE_ID", 1/10)], 23/10⟩ := by
    with_unfolding_all rfl
  have h13 : hdrTo emptyParsedEmail
        ⟨[("SPF_NONE", 1/10), ("DKIM_NONE", 0), ("MISSING_FROM", 2),
          ("MISSING_DATE", 1/10), ("MISSING_MESSAGE_ID", 1/10)], 23/10⟩ =
      ⟨[("SPF_NONE", 1/10), ("DKIM_NONE", 0), ("MISSING_FROM", 2),
        ("MISSING_DATE", 1/10), ("MISSING_MESSAGE_ID", 1/10),
        ("TO_NO_RECIPIENT", 3/2)], 38/10⟩ := by
    with_unfolding_all rfl
  have h14 : hdrPriority emptyParsedEmail
        ⟨[("SPF_NONE", 1/10), ("DKIM_NONE", 0), ("MISSING_FROM", 2),
          ("MISSING_DATE", 1/10), ("MISSING_MESSAGE_ID", 1/10),
          ("TO_NO_RECIPIENT", 3/2)], 38/10⟩ =
      ⟨[("SPF_NONE", 1/10), ("DKIM_NONE", 0), ("MISSING_FROM", 2),
        ("MISSING_DATE", 1/10), ("MISSING_MESSAGE_ID", 1/10),
        ("TO_NO_RECIPIENT", 3/2)], 38/10⟩ := by
    with_unfolding_all rfl
  unfold analyzeHeaders
  rw [h1, h2, h3, h4, h5, h6, h7, h8, h9, h10, h11, h12, h13, h14]


-- ===========================================================================
-- Claim C9: the allowlist and its actual scope
-- ===========================================================================

theorem Acc.matchList_push (a : Acc) (n : String) (s : ℚ) :
    (a.push n s).matchList = a.matchList ++ [(n, s)] := rfl


theorem Acc.extends_refl (a : Acc) : a.Extends a := ⟨[], by simp⟩


theorem Acc.extends_push (a : Acc) (n : String) (s : ℚ) :
    a.Extends (a.push n s) := ⟨[(n, s)], rfl⟩


theorem Acc.Extends.trans {a b c : Acc} (h1 : a.Extends b) (h2 : b.Extends c) :
    a.Extends c := by
  obtain ⟨l1, e1⟩ := h1
  obtain ⟨l2, e2⟩ := h2
  exact ⟨l1 ++ l2, by rw [e2, e1, List.append_assoc]⟩


theorem Acc.extends_pushIf (c : Bool) (a : Acc) (n : String) (s : ℚ) :
    a.Extends (Acc.pushIf c a n s) := by
  unfold Acc.pushIf
  split
  · exact a.extends_push n s
  · exact a.extends_refl


theorem Acc.extends_pushOpt (o : Option (String × ℚ)) (pre : String) (a : Acc) :
    a.Extends (Acc.pushOpt o pre a) := by
  unfold Acc.pushOpt
  split
  · exact a.extends_push _ _
  · exact a.extends_refl


theorem urlDomainStep_extends (dp pp : Nat → Str → Bool) (p : Acc × List Str)
    (u : UrlInfoM) : p.1.Extends ((urlDomainStep dp pp p u).1) := by
  by_cases hseen : (p.2.any (· = getRootDomain u.domain)) = true
  · simp only [urlDomainStep, hseen, if_true]
    exact p.1.extends_refl
  · by_cases hleg : (LEGITIMATE_DOMAINS_M.any (· = getRootDomain u.domain)) = true
    · simp only [urlDomainStep, hseen, hleg]
      simp only [Bool.false_eq_true, if_false, if_true]
      exact p.1.extends_refl
    · simp only [urlDomainStep, hseen, hleg]
      simp only [Bool.false_eq_true, if_false]
      exact ((((((((Acc.extends_pushIf _ _ _ _).trans
        (Acc.extends_pushIf _ _ _ _)).trans
        (Acc.extends_pushIf _ _ _ _)).trans
        (Acc.extends_pushIf _ _ _ _)).trans
        (Acc.extends_pushIf _ _ _ _)).trans
        (Acc.extends_pushOpt _ _ _)).trans
        (Acc.extends_pushOpt _ _ _)).trans
        (Acc.extends_pushIf _ _ _ _)).trans
        (Acc.extends_pushIf _ _ _ _)


theorem urlLoop_extends (dp pp : Nat → Str → Bool) (urls : List UrlInfoM) :
    ∀ p : Acc × List Str, p.1.Extends ((urls.foldl (urlDomainStep dp pp) p).1) := by
  induction urls with
  | nil => intro p; exact p.1.extends_refl
  | cons u rest ih =>
      intro p
      exact (urlDomainStep_extends dp pp p u).trans (ih (urlDomainStep dp pp p u))


theorem mismFold_matchList (mism : List (Str × Str)) (a : Acc) :
    (mism.foldl (fun a _m => a.push "MISMATCHED_LINK_TEXT" 2) a).matchList =
      a.matchList ++ mism.map (fun _ => ("MISMATCHED_LINK_TEXT", (2 : ℚ))) := by
  induction mism generalizing a with
  | nil => simp
  | cons m rest ih =>
      simp only [List.foldl_cons, List.map_cons, ih, Acc.matchList_push]
      simp


set_option maxRecDepth 100000 in
set_option maxHeartbeats 4000000 in
/-- C9 counterexample: on the email whose body lists eleven distinct URLs
that all live on the allowlisted root domain google.com, the URL analyzer
still fires MANY_URLS for a score of 1.0, because the many-URLs count is
taken before the allowlist skip; so an allowlisted root domain does not
suppress every URL penalty. -/
theorem C9_allowlist_counterexample :
    analyzeUrls demoParseUrl (fun _ => []) (fun _ => []) (fun _ _ => false)
      (fun _ _ => false) c9Email = ⟨[("MANY_URLS", 1)], 1⟩
    ∧ (((dedupStr (extractUrls c9Email.textBody ++ extractUrls c9Email.htmlBody
          ++ extractUrls [])).take 50).filterMap demoParseUrl).all
        (fun u => LEGITIMATE_DOMAINS_M.any (· = getRootDomain u.domain)) = true := by
  constructor
  · with_unfolding_all rfl
  · with_unfolding_all decide


/-- C9 as amended: the allowlist fully suppresses the per root domain
rules (for an allowlisted root domain the loop body leaves the
accumulator unchanged), but it does not reach the other two rule groups:
MANY_URLS still fires from the raw parsed URL count, and one
MISMATCHED_LINK_TEXT flag is appended per offending anchor no matter
which domains are involved. -/
theorem C9_allowlist_scope (dp pp : Nat → Str → Bool) (p : Acc × List Str)
    (u : UrlInfoM) (urls : List UrlInfoM) (mism : List (Str × Str))
    (h : (LEGITIMATE_DOMAINS_M.any (· = getRootDomain u.domain)) = true) :
    ((urlDomainStep dp pp p u).1 = p.1)
    ∧ (urls.length > 10 →
        ("MANY_URLS", (1 : ℚ)) ∈ (analyzeUrlsCore dp pp urls mism).matchList)
    ∧ (analyzeUrlsCore dp pp urls mism).matchList =
        ((urls.foldl (urlDomainStep dp pp)
          (Acc.pushIf (urls.length > 10) Acc.empty "MANY_URLS" 1, [])).1).matchList
          ++ mism.map (fun _ => ("MISMATCHED_LINK_TEXT", (2 : ℚ))) := by
  refine ⟨?_, ?_, ?_⟩
  · by_cases hseen : (p.2.any (· = getRootDomain u.domain)) = true
    · simp only [urlDomainStep, hseen, if_true]
    · simp only [urlDomainStep, hseen, h]
      simp only [Bool.false_eq_true, if_false, if_true]
  · intro hlen
    unfold analyzeUrlsCore
    rw [mismFold_matchList]
    apply List.mem_append_left
    obtain ⟨l, hl⟩ := urlLoop_extends dp pp urls
      (if urls.length > 10 then Acc.empty.push "MANY_URLS" 1 else Acc.empty, [])
    simp only [hl]
    rw [if_pos hlen]
    simp [Acc.matchList_push, Acc.empty]
  · unfold analyzeUrlsCore
    rw [mismFold_matchList]
    have : (if urls.length > 10 then Acc.empty.push "MANY_URLS" 1 else Acc.empty)
        = Acc.pushIf (urls.length > 10) Acc.empty "MANY_URLS" 1 := by
      by_cases hl : urls.length > 10 <;> simp [Acc.pushIf, hl]
    rw [this]


/-- Witness for C9 as amended, at a concrete allowlisted URL. -/
theorem C9_allowlist_scope_witness :
    ((LEGITIMATE_DOMAINS_M.any (· = getRootDomain googleInfo.domain)) = true)
    ∧ ((urlDomainStep (fun _ _ => false) (fun _ _ => false) (Acc.empty, [])
        googleInfo).1 = Acc.empty) :=
  ⟨by decide,
    (C9_allowlist_scope (fun _ _ => false) (fun _ _ => false) (Acc.empty, [])
      googleInfo [] [] (by decide)).1⟩


theorem Acc.good_empty : Acc.empty.Good :=
  ⟨Acc.synced_empty, le_refl 0⟩


theorem Acc.score_push (a : Acc) (n : String) (s : ℚ) :
    (a.push n s).score = a.score + s := rfl


theorem Acc.good_push {a : Acc} (h : a.Good) {n : String} {s : ℚ}
    (hs : 0 ≤ s) : (a.push n s).Good := by
  refine ⟨a.synced_push n s h.1, ?_⟩
  rw [Acc.score_push]
  have := h.2
  linarith


theorem Acc.good_pushIf {c : Bool} {a : Acc} {n : String} {s : ℚ}
    (h : a.Good) (hs : 0 ≤ s) : (Acc.pushIf c a n s).Good := by
  unfold Acc.pushIf
  split
  · exact Acc.good_push h hs
  · exact h


theorem Acc.good_pushOpt {o : Option (String × ℚ)} {pre : String} {a : Acc}
    (h : a.Good) (hs : ∀ pr, o = some pr → 0 ≤ pr.2) :
    (Acc.pushOpt o pre a).Good := by
  cases o with
  | none => simpa [Acc.pushOpt] using h
  | some pr => simpa [Acc.pushOpt] using Acc.good_push h (hs pr rfl)


theorem Acc.good_foldl {α : Type} (l : List α) (step : Acc → α → Acc)
    (hstep : ∀ a x, x ∈ l → a.Good → (step a x).Good) :
    ∀ a : Acc, a.Good → (l.foldl step a).Good := by
  induction l with
  | nil => intro a ha; simpa using ha
  | cons x t ih =>
      intro a ha
      exact ih (fun b y hy hb => hstep b y (by simp [hy]) hb) (step a x)
        (hstep a x (by simp) ha)


theorem Acc.good_foldl_fst {α β : Type} (l : List α)
    (step : (Acc × β) → α → (Acc × β))
    (hstep : ∀ p x, x ∈ l → p.1.Good → ((step p x).1).Good) :
    ∀ p : Acc × β, p.1.Good → ((l.foldl step p).1).Good := by
  induction l with
  | nil => intro p hp; simpa using hp
  | cons x t ih =>
      intro p hp
      exact ih (fun q y hy hq => hstep q y (by simp [hy]) hq) (step p x)
        (hstep p x (by simp) hp)


theorem Acc.synced_pushIf (c : Bool) (a : Acc) (n : String) (s : ℚ)
    (h : a.Synced) : (Acc.pushIf c a n s).Synced := by
  unfold Acc.pushIf
  split
  · exact a.synced_push n s h
  · exact h


theorem Acc.synced_pushOpt (o : Option (String × ℚ)) (pre : String) (a : Acc)
    (h : a.Synced) : (Acc.pushOpt o pre a).Synced := by
  unfold Acc.pushOpt
  split
  · exact Acc.synced_push _ _ _ h
  · exact h


theorem Acc.synced_foldl_fst {α β : Type} (l : List α)
    (step : (Acc × β) → α → (Acc × β))
    (hstep : ∀ p x, p.1.Synced → ((step p x).1).Synced) :
    ∀ p : Acc × β, p.1.Synced → ((l.foldl step p).1).Synced := by
  induction l with
  | nil => intro p hp; simpa using hp
  | cons x t ih => intro p hp; exact ih (step p x) (hstep p x hp)


theorem Acc.extends_foldl {α : Type} (l : List α) (step : Acc → α → Acc)
    (hstep : ∀ (a : Acc) (x : α), a.Extends (step a x)) :
    ∀ a : Acc, a.Extends (l.foldl step a) := by
  induction l with
  | nil => intro a; exact Acc.extends_refl a
  | cons x t ih => intro a; exact (hstep a x).trans (ih (step a x))


theorem Acc.extends_foldl_fst {α β : Type} (l : List α)
    (step : (Acc × β) → α → (Acc × β))
    (hstep : ∀ (p : Acc × β) (x : α), p.1.Extends ((step p x).1)) :
    ∀ p : Acc × β, p.1.Extends ((l.foldl step p).1) := by
  induction l with
  | nil => intro p; exact Acc.extends_refl p.1
  | cons x t ih => intro p; exact (hstep p x).trans (ih (step p x))


theorem mem_of_extends {m : String × ℚ} {a b : Acc} (h : a.Extends b)
    (hm : m ∈ a.matchList) : m ∈ b.matchList := by
  obtain ⟨l, hl⟩ := h
  rw [hl]
  exact List.mem_append_left _ hm


-- Content analyzer invariants.

theorem spamPhraseStep_synced (allT norm : Str) (a : Acc) (w : SpamWordM)
    (h : a.Synced) : (spamPhraseStep allT norm a w).Synced := by
  unfold spamPhraseStep
  split
  · exact Acc.synced_push _ _ _ h
  · exact h


theorem spamPhraseStep_extends (allT norm : Str) (a : Acc) (w : SpamWordM) :
    a.Extends (spamPhraseStep allT norm a w) := by
  unfold spamPhraseStep
  split
  · exact a.extends_push _ _
  · exact a.extends_refl


theorem singleWordStep_synced (d : ContentData) (p : Acc × List Str) (w : Str)
    (h : p.1.Synced) : ((singleWordStep d p w).1).Synced := by
  unfold singleWordStep
  split
  · split
    · exact Acc.synced_push _ _ _ h
    · exact h
  · exact h


theorem singleWordStep_extends (d : ContentData) (p : Acc × List Str) (w : Str) :
    p.1.Extends ((singleWordStep d p w).1) := by
  unfold singleWordStep
  split
  · split
    · exact Acc.extends_push _ _ _
    · exact p.1.extends_refl
  · exact p.1.extends_refl


theorem hamStep_synced (norm : Str) (a : Acc) (hw : Str × ℚ)
    (h : a.Synced) : (hamStep norm a hw).Synced := by
  unfold hamStep
  split
  · exact Acc.synced_push _ _ _ h
  · exact h


theorem hamStep_extends (norm : Str) (a : Acc) (hw : Str × ℚ) :
    a.Extends (hamStep norm a hw) := by
  unfold hamStep
  split
  · exact a.extends_push _ _
  · exact a.extends_refl


theorem contentDynamic_synced (d : ContentData) (subject allT norm : Str)
    (a : Acc) (h : a.Synced) : (contentDynamic d subject allT norm a).Synced := by
  unfold contentDynamic
  apply Acc.synced_foldl _ _ (fun b hw hb => hamStep_synced norm b hw hb)
  apply Acc.synced_foldl_fst _ _ (fun q w hq => singleWordStep_synced d q w hq)
  apply Acc.synced_foldl _ _ (fun b w hb => spamPhraseStep_synced allT norm b w hb)
  apply Acc.synced_foldl _ _ (fun b pat hb => Acc.synced_pushIf _ b _ _ hb)
  exact h


theorem contentDynamic_extends (d : ContentData) (subject allT norm : Str)
    (a : Acc) : a.Extends (contentDynamic d subject allT norm a) := by
  unfold contentDynamic
  refine (((Acc.extends_foldl _ _
      (fun b pat => Acc.extends_pushIf _ b _ _) a).trans
    (Acc.extends_foldl _ _
      (fun b w => spamPhraseStep_extends allT norm b w) _)).trans
    (Acc.extends_foldl_fst _ _
      (fun q w => singleWordStep_extends d q w) _)).trans
    (Acc.extends_foldl _ _ (fun b hw => hamStep_extends norm b hw) _)


theorem contentAcc_synced (d : ContentData) (htmlToText : Str → Str)
    (e : ParsedEmailM) : (contentAcc d htmlToText e).Synced := by
  unfold contentAcc
  exact Acc.synced_pushIf _ _ _ _ (Acc.synced_pushIf _ _ _ _
    (Acc.synced_pushIf _ _ _ _ (Acc.synced_pushIf _ _ _ _
      (contentDynamic_synced _ _ _ _ _ (Acc.synced_pushIf _ _ _ _
        (Acc.synced_pushIf _ _ _ _ (Acc.synced_pushIf _ _ _ _
          (Acc.synced_pushIf _ _ _ _ Acc.synced_empty))))))))


theorem analyzeContent_floor (d : ContentData) (htmlToText : Str → Str)
    (e : ParsedEmailM) :
    (analyzeContent d htmlToText e).score =
      jsMax 0 (matchSum (analyzeContent d htmlToText e).matchList) := by
  have h := contentAcc_synced d htmlToText e
  unfold analyzeContent
  unfold Acc.Synced at h
  rw [h]


theorem jsMax_zero_nonneg (x : ℚ) : 0 ≤ jsMax 0 x := by
  unfold jsMax
  split
  · assumption
  · exact le_refl 0


/-- On the empty email the content analyzer pushes EMPTY_BODY and
SUBJECT_EMPTY whatever the dataset, and every later step only appends. -/
theorem contentAcc_empty_mem (d : ContentData) (htmlToText : Str → Str) :
    ("EMPTY_BODY", (1 : ℚ)) ∈ (analyzeContent d htmlToText emptyParsedEmail).matchList
    ∧ ("SUBJECT_EMPTY", (1 : ℚ)) ∈
        (analyzeContent d htmlToText emptyParsedEmail).matchList := by
  have hgen : ∀ (x : Acc), x =
      (⟨[("EMPTY_BODY", 1), ("SUBJECT_EMPTY", 1)], 2⟩ : Acc) →
      ("EMPTY_BODY", (1 : ℚ)) ∈ x.matchList ∧
        ("SUBJECT_EMPTY", (1 : ℚ)) ∈ x.matchList := by
    rintro x rfl
    constructor <;> simp
  constructor
  all_goals {
    unfold analyzeContent contentAcc
    apply mem_of_extends (Acc.extends_pushIf _ _ _ _)
    apply mem_of_extends (Acc.extends_pushIf _ _ _ _)
    apply mem_of_extends (Acc.extends_pushIf _ _ _ _)
    apply mem_of_extends (Acc.extends_pushIf _ _ _ _)
    apply mem_of_extends (contentDynamic_extends _ _ _ _ _)
    first
      | exact (hgen _ (by with_unfolding_all rfl)).1
      | exact (hgen _ (by with_unfolding_all rfl)).2
  }


-- Header analyzer invariants.

theorem Acc.good_ite (c : Prop) [Decidable c] {x y : Acc} (hx : x.Good)
    (hy : y.Good) : (if c then x else y).Good := by
  split
  · exact hx
  · exact hy


theorem spfMatches_score_nonneg (s : Str) : ∀ m ∈ spfMatches s, 0 ≤ m.2 := by
  intro m hm
  unfold spfMatches at hm
  split_ifs at hm <;> simp at hm <;> rw [hm] <;> norm_num


theorem hdrSpf_good (e : ParsedEmailM) : (hdrSpf e).Good := by
  unfold hdrSpf
  exact Acc.good_foldl _ _
    (fun a m hm ha => Acc.good_push ha (spfMatches_score_nonneg _ m hm))
    _ Acc.good_empty


theorem hdrDkim_good (e : ParsedEmailM) (a : Acc) (h : a.Good) :
    (hdrDkim e a).Good := by
  unfold hdrDkim
  split_ifs <;> first
    | exact h
    | exact Acc.good_push h (by norm_num)


theorem hdrDmarc_good (e : ParsedEmailM) (a : Acc) (h : a.Good) :
    (hdrDmarc e a).Good := by
  unfold hdrDmarc
  split_ifs <;> first
    | exact h
    | exact Acc.good_push h (by norm_num)


theorem hdrFrom_good (e : ParsedEmailM) (a : Acc) (h : a.Good) :
    (hdrFrom e a).Good := by
  unfold hdrFrom
  split_ifs <;> first
    | exact h
    | exact Acc.good_push h (by norm_num)


theorem hdrDate_good (now : ℤ) (e : ParsedEmailM) (a : Acc) (h : a.Good) :
    (hdrDate now e a).Good := by
  unfold hdrDate
  split
  · exact Acc.good_push h (by norm_num)
  · split_ifs <;> first
      | exact h
      | exact Acc.good_push h (by norm_num)
      | exact Acc.good_push (Acc.good_push h (by norm_num)) (by norm_num)


theorem hdrMsgId_good (e : ParsedEmailM) (a : Acc) (h : a.Good) :
    (hdrMsgId e a).Good := by
  unfold hdrMsgId
  split_ifs <;> first
    | exact h
    | exact Acc.good_push h (by norm_num)


theorem hdrReceived_good (e : ParsedEmailM) (a : Acc) (h : a.Good) :
    (hdrReceived e a).Good := by
  unfold hdrReceived
  split_ifs <;> first
    | exact h
    | exact Acc.good_push h (by norm_num)


theorem hdrForged_good (forged : Str → Bool) (e : ParsedEmailM) (a : Acc)
    (h : a.Good) : (hdrForged forged e a).Good := by
  unfold hdrForged
  split_ifs <;> first
    | exact h
    | exact Acc.good_push h (by norm_num)


theorem hdrReplyTo_good (e : ParsedEmailM) (a : Acc) (h : a.Good) :
    (hdrReplyTo e a).Good := by
  unfold hdrReplyTo
  split
  · split_ifs <;> first
      | exact h
      | exact Acc.good_push h (by norm_num)
  · exact h


theorem hdrReturnPath_good (e : ParsedEmailM) (a : Acc) (h : a.Good) :
    (hdrReturnPath e a).Good := by
  unfold hdrReturnPath
  split
  · dsimp only
    split_ifs with h1
    · exact h
    · split
      · split_ifs <;> first
          | exact h
          | exact Acc.good_push h (by norm_num)
      · exact h
  · exact h


theorem hdrMailer_good (e : ParsedEmailM) (a : Acc) (h : a.Good) :
    (hdrMailer e a).Good := by
  unfold hdrMailer
  split_ifs <;> first
    | exact h
    | exact Acc.good_push h (by norm_num)


theorem hdrFreemail_good (e : ParsedEmailM) (a : Acc) (h : a.Good) :
    (hdrFreemail e a).Good := by
  unfold hdrFreemail
  split
  · dsimp only
    split_ifs <;> first
      | exact h
      | exact Acc.good_push h (by norm_num)
  · exact h


theorem hdrTo_good (e : ParsedEmailM) (a : Acc) (h : a.Good) :
    (hdrTo e a).Good := by
  unfold hdrTo
  split_ifs <;> first
    | exact h
    | exact Acc.good_push h (by norm_num)


theorem hdrPriority_good (e : ParsedEmailM) (a : Acc) (h : a.Good) :
    (hdrPriority e a).Good := by
  unfold hdrPriority
  dsimp only
  split_ifs <;> first
    | exact h
    | exact Acc.good_push h (by norm_num)


theorem analyzeHeaders_good (forged : Str → Bool) (now : ℤ)
    (e : ParsedEmailM) : (analyzeHeaders forged now e).Good := by
  unfold analyzeHeaders
  exact hdrPriority_good e _ (hdrTo_good e _ (hdrFreemail_good e _
    (hdrMailer_good e _ (hdrReturnPath_good e _ (hdrReplyTo_good e _
      (hdrForged_good forged e _ (hdrReceived_good e _ (hdrMsgId_good e _
        (hdrDate_good now e _ (hdrFrom_good e _ (hdrDmarc_good e _
          (hdrDkim_good e _ (hdrSpf_good e)))))))))))))


-- Pattern analyzer invariants.

theorem ALL_PATTERNS_nonneg : ∀ pr ∈ ALL_PATTERNS_M, 0 ≤ pr.2 := by
  with_unfolding_all decide


/-- An independent additive rule site: push on the condition, keep the
accumulator otherwise. -/
theorem Acc.good_ite_push (c : Prop) [Decidable c] {a : Acc} (n : String)
    (s : ℚ) (h : a.Good) (hs : 0 ≤ s) : (if c then a.push n s else a).Good :=
  Acc.good_ite c (Acc.good_push h hs) h


theorem analyzePatterns_good (execP : String → Str → Bool) (entropy : Str → ℚ)
    (urgencyCnt : Str → Nat) (htmlToText : Str → Str) (e : ParsedEmailM) :
    (analyzePatterns execP entropy urgencyCnt htmlToText e).Good := by
  unfold analyzePatterns
  refine Acc.good_ite_push _ _ _ (Acc.good_ite_push _ _ _
    (Acc.good_ite_push _ _ _ (Acc.good_ite_push _ _ _
      (Acc.good_ite_push _ _ _ (Acc.good_ite_push _ _ _ ?_
        (by norm_num)) (by norm_num)) (by norm_num)) (by norm_num))
      (by norm_num)) (by norm_num)
  refine Acc.good_foldl _ _ ?_ _ Acc.good_empty
  intro a pr hpr ha
  dsimp only
  split_ifs <;> first
    | exact ha
    | exact Acc.good_push ha (ALL_PATTERNS_nonneg pr hpr)


-- URL analyzer invariants.

theorem SPAM_DOMAIN_PATTERNS_nonneg : ∀ pr ∈ SPAM_DOMAIN_PATTERNS_M, 0 ≤ pr.2 := by
  with_unfolding_all decide


theorem SUSPICIOUS_PATH_PATTERNS_nonneg :
    ∀ pr ∈ SUSPICIOUS_PATH_PATTERNS_M, 0 ≤ pr.2 := by
  with_unfolding_all decide


theorem firstPat_mem (test : Nat → Str → Bool) :
    ∀ (i : Nat) (l : List (String × ℚ)) (s : Str) (pr : String × ℚ),
      firstPat test i l s = some pr → pr ∈ l := by
  intro i l
  induction l generalizing i with
  | nil => intro s pr hm; simp [firstPat] at hm
  | cons x t ih =>
      intro s pr hm
      unfold firstPat at hm
      split_ifs at hm
      · simp at hm
        simp [hm]
      · exact List.mem_cons_of_mem x (ih (i + 1) s pr hm)


theorem urlDomainStep_good (dp pp : Nat → Str → Bool) (p : Acc × List Str)
    (u : UrlInfoM) (h : p.1.Good) : ((urlDomainStep dp pp p u).1).Good := by
  by_cases hseen : (p.2.any (· = getRootDomain u.domain)) = true
  · simp only [urlDomainStep, hseen, if_true]
    exact h
  · by_cases hleg : (LEGITIMATE_DOMAINS_M.any (· = getRootDomain u.domain)) = true
    · simp only [urlDomainStep, hseen, hleg]
      simp only [Bool.false_eq_true, if_false, if_true]
      exact h
    · simp only [urlDomainStep, hseen, hleg]
      simp only [Bool.false_eq_true, if_false]
      refine Acc.good_pushIf (Acc.good_pushIf (Acc.good_pushOpt
        (Acc.good_pushOpt (Acc.good_pushIf (Acc.good_pushIf
          (Acc.good_pushIf (Acc.good_pushIf (Acc.good_pushIf h
            (by norm_num)) (by norm_num)) (by norm_num)) (by norm_num))
            (by norm_num)) ?_) ?_) (by norm_num)) (by norm_num)
      · intro pr hpr
        exact SPAM_DOMAIN_PATTERNS_nonneg pr (firstPat_mem dp 0 _ _ pr hpr)
      · intro pr hpr
        exact SUSPICIOUS_PATH_PATTERNS_nonneg pr (firstPat_mem pp 0 _ _ pr hpr)


theorem analyzeUrlsCore_good (dp pp : Nat → Str → Bool)
    (parsedUrls : List UrlInfoM) (mismatched : List (Str × Str)) :
    (analyzeUrlsCore dp pp parsedUrls mismatched).Good := by
  unfold analyzeUrlsCore
  refine Acc.good_foldl _ _ ?_ _ ?_
  · intro a m hm ha
    exact Acc.good_push ha (show (0:ℚ) ≤ 2 by norm_num)
  · refine Acc.good_foldl_fst _ _ ?_ _ ?_
    · intro q v hv hq
      exact urlDomainStep_good dp pp q v hq
    · exact Acc.good_ite_push _ _ _ Acc.good_empty (by norm_num)


theorem analyzeUrls_good (parseU : Str → Option UrlInfoM)
    (htmlToText : Str → Str) (findMism : Str → List (Str × Str))
    (dp pp : Nat → Str → Bool) (e : ParsedEmailM) :
    (analyzeUrls parseU htmlToText findMism dp pp e).Good := by
  unfold analyzeUrls
  exact analyzeUrlsCore_good dp pp _ _


-- HTML analyzer invariants.

theorem dedupLoop_good (tests : List (Str → Bool)) (html : Str)
    (name : String) (sc : ℚ) (a : Acc) (h : a.Good) (hs : 0 ≤ sc) :
    (dedupLoop tests html name sc a).Good := by
  unfold dedupLoop
  refine Acc.good_foldl _ _ ?_ _ h
  intro b p hp hb
  split_ifs
  · exact Acc.good_push hb hs
  · exact hb


theorem analyzeHtml_good (t : HtmlTests) (html : Str) :
    ((analyzeHtml t html).1).Good := by
  unfold analyzeHtml
  split
  · exact Acc.good_empty
  · refine Acc.good_ite_push _ _ _ (Acc.good_ite_push _ _ _
      (Acc.good_ite_push _ _ _ (Acc.good_ite_push _ _ _
        (Acc.good_ite_push _ _ _ (dedupLoop_good _ _ _ _ _
          (Acc.good_ite_push _ _ _ (Acc.good_ite_push _ _ _
            (dedupLoop_good _ _ _ _ _ (Acc.good_ite_push _ _ _
              (Acc.good_ite_push _ _ _ (Acc.good_ite_push _ _ _
                (dedupLoop_good _ _ _ _ _ (Acc.good_ite_push _ _ _
                  (dedupLoop_good _ _ _ _ _ Acc.good_empty (by norm_num))
                  (by norm_num)) (by norm_num)) (by norm_num)) (by norm_num))
                (by norm_num)) (by norm_num)) (by norm_num)) (by norm_num))
          (by norm_num)) (by norm_num)) (by norm_num)) (by norm_num))
      (by norm_num)) (by norm_num)


-- Bayesian analyzer floor.

theorem bayesFromTokens_floor (table : TokenTable) (ts : List Str) :
    (bayesFromTokens table ts).acc.score =
      jsMax 0 (bayesRawScore ((bayesFromTokens table ts).spamProbability))
    ∧ 0 ≤ (bayesFromTokens table ts).acc.score := by
  unfold bayesFromTokens
  split
  · exact ⟨by with_unfolding_all rfl, by with_unfolding_all decide⟩
  · exact ⟨rfl, jsMax_zero_nonneg _⟩


theorem analyzeBayesian_floor (table : TokenTable) (htmlToText : Str → Str)
    (e : ParsedEmailM) :
    (analyzeBayesian table htmlToText e).acc.score =
      jsMax 0 (bayesRawScore ((analyzeBayesian table htmlToText e).spamProbability))
    ∧ 0 ≤ (analyzeBayesian table htmlToText e).acc.score := by
  unfold analyzeBayesian
  dsimp only
  exact bayesFromTokens_floor table _


-- ===========================================================================
-- Claim C6: the fully empty email under the default configuration
-- ===========================================================================

-- Concrete values of each analyzer on the empty email at the trivial
-- oracle assignment.

theorem analyzeContent_trivial_empty :
    analyzeContent trivialOracles.contentData trivialOracles.htmlToText
        emptyParsedEmail =
      ⟨[("EMPTY_BODY", 1), ("SUBJECT_EMPTY", 1)], 2⟩ := by
  with_unfolding_all rfl


theorem analyzeUrls_trivial_empty :
    analyzeUrls trivialOracles.parseU trivialOracles.htmlToText
        trivialOracles.findMism trivialOracles.dp trivialOracles.pp
        emptyParsedEmail = Acc.empty := by
  with_unfolding_all rfl


theorem analyzeHtml_trivial_empty :
    analyzeHtml trivialOracles.htmlTests emptyParsedEmail.htmlBody =
      (Acc.empty, false) := by
  with_unfolding_all rfl


theorem analyzePatterns_trivial_empty :
    analyzePatterns trivialOracles.execP trivialOracles.entropy
        trivialOracles.urgencyCnt trivialOracles.htmlToText
        emptyParsedEmail = Acc.empty := by
  with_unfolding_all rfl


theorem analyzeBayesian_trivial_empty :
    analyzeBayesian trivialOracles.bayesTable trivialOracles.htmlToText
        emptyParsedEmail = ⟨Acc.empty, 1/2⟩ := by
  with_unfolding_all rfl


theorem engineAnalyzerScores_trivial_empty :
    engineAnalyzerScores trivialOracles emptyParsedEmail =
      [38/10, 2, 0, 0, 0, 0] := by
  unfold engineAnalyzerScores
  rw [analyzeHeaders_empty, analyzeContent_trivial_empty,
    analyzeUrls_trivial_empty, analyzeHtml_trivial_empty,
    analyzePatterns_trivial_empty, analyzeBayesian_trivial_empty]
  rfl


/-- C6 counterexample: on the empty email the spec predicted ham or
probable_ham, but with every external oracle trivial the six analyzer
scores are 3.8, 2, 0, 0, 0 and 0, the total is 5.8, and the default
configuration classifies the empty email as spam. -/
theorem C6_empty_email_counterexample :
    engineAnalyzerScores trivialOracles emptyParsedEmail =
        [38/10, 2, 0, 0, 0, 0]
    ∧ (buildResult (engineAnalyzerScores trivialOracles emptyParsedEmail)
        DEFAULT_CONFIG).classification = Classification.spam
    ∧ (buildResult (engineAnalyzerScores trivialOracles emptyParsedEmail)
        DEFAULT_CONFIG).classification ≠ Classification.ham
    ∧ (buildResult (engineAnalyzerScores trivialOracles emptyParsedEmail)
        DEFAULT_CONFIG).classification ≠ Classification.probable_ham := by
  have h := engineAnalyzerScores_trivial_empty
  rw [h]
  refine ⟨rfl, ?_, ?_, ?_⟩
  · with_unfolding_all rfl
  · with_unfolding_all decide
  · with_unfolding_all decide


/-- C6: EMPTY_BODY and SUBJECT_EMPTY do both fire on the empty email
(first half of the claim, confirmed for every dataset), but the spec's
predicted classification is wrong: whatever the external oracles, the
header analyzer alone contributes 3.8 on the empty email, every other
analyzer score is nonnegative, so the total reaches the default spam
threshold 3.5 and the classification is spam, not ham or probable_ham. -/
theorem C6_empty_email (o : Oracles) :
    ("EMPTY_BODY", (1:ℚ)) ∈
        (analyzeContent o.contentData o.htmlToText emptyParsedEmail).matchList
    ∧ ("SUBJECT_EMPTY", (1:ℚ)) ∈
        (analyzeContent o.contentData o.htmlToText emptyParsedEmail).matchList
    ∧ (buildResult (engineAnalyzerScores o emptyParsedEmail)
        DEFAULT_CONFIG).classification = Classification.spam
    ∧ (buildResult (engineAnalyzerScores o emptyParsedEmail)
        DEFAULT_CONFIG).classification ≠ Classification.ham
    ∧ (buildResult (engineAnalyzerScores o emptyParsedEmail)
        DEFAULT_CONFIG).classification ≠ Classification.probable_ham := by
  obtain ⟨h1, h2⟩ := contentAcc_empty_mem o.contentData o.htmlToText
  have hh : (analyzeHeaders o.forged o.now emptyParsedEmail).score = 38/10 := by
    rw [analyzeHeaders_empty]
  have hc : 0 ≤ (analyzeContent o.contentData o.htmlToText
      emptyParsedEmail).score := by
    rw [analyzeContent_floor]
    exact jsMax_zero_nonneg _
  have hu : 0 ≤ (analyzeUrls o.parseU o.htmlToText o.findMism o.dp o.pp
      emptyParsedEmail).score :=
    (analyzeUrls_good _ _ _ _ _ _).2
  have hhtml : 0 ≤ ((analyzeHtml o.htmlTests emptyParsedEmail.htmlBody).1).score :=
    (analyzeHtml_good _ _).2
  have hp : 0 ≤ (analyzePatterns o.execP o.entropy o.urgencyCnt o.htmlToText
      emptyParsedEmail).score :=
    (analyzePatterns_good _ _ _ _ _).2
  have hb : 0 ≤ ((analyzeBayesian o.bayesTable o.htmlToText
      emptyParsedEmail).acc).score :=
    (analyzeBayesian_floor _ _ _).2
  have htot : totalScore (engineAnalyzerScores o emptyParsedEmail) ≥
      DEFAULT_CONFIG.spamThreshold := by
    show (35/10 : ℚ) ≤ _
    unfold engineAnalyzerScores totalScore
    simp only [List.foldl]
    linarith
  have hclass : (buildResult (engineAnalyzerScores o emptyParsedEmail)
      DEFAULT_CONFIG).classification = Classification.spam := by
    unfold buildResult classify
    dsimp only
    rw [if_pos htot]
  refine ⟨h1, h2, hclass, ?_, ?_⟩
  · rw [hclass]
    decide
  · rw [hclass]
    decide


-- ===========================================================================
-- Claim C8: per-analyzer score accounting
-- ===========================================================================

/-- C8 (amended): for every email and every oracle assignment, the header,
URL, HTML and pattern analyzer scores equal the sum of their match scores
and are nonnegative; the content analyzer score is the sum of its match
scores floored at 0; the Bayesian analyzer score is not a sum over its
matches at all: it is the mapped probability score floored at 0. All six
reported scores are nonnegative. -/
theorem C8_per_analyzer_scores (o : Oracles) (e : ParsedEmailM) :
    ((analyzeHeaders o.forged o.now e).score =
        matchSum (analyzeHeaders o.forged o.now e).matchList
      ∧ 0 ≤ (analyzeHeaders o.forged o.now e).score)
    ∧ ((analyzeContent o.contentData o.htmlToText e).score =
        jsMax 0 (matchSum (analyzeContent o.contentData o.htmlToText e).matchList)
      ∧ 0 ≤ (analyzeContent o.contentData o.htmlToText e).score)
    ∧ ((analyzeUrls o.parseU o.htmlToText o.findMism o.dp o.pp e).score =
        matchSum (analyzeUrls o.parseU o.htmlToText o.findMism o.dp o.pp e).matchList
      ∧ 0 ≤ (analyzeUrls o.parseU o.htmlToText o.findMism o.dp o.pp e).score)
    ∧ (((analyzeHtml o.htmlTests e.htmlBody).1).score =
        matchSum ((analyzeHtml o.htmlTests e.htmlBody).1).matchList
      ∧ 0 ≤ ((analyzeHtml o.htmlTests e.htmlBody).1).score)
    ∧ ((analyzePatterns o.execP o.entropy o.urgencyCnt o.htmlToText e).score =
        matchSum (analyzePatterns o.execP o.entropy o.urgencyCnt o.htmlToText e).matchList
      ∧ 0 ≤ (analyzePatterns o.execP o.entropy o.urgencyCnt o.htmlToText e).score)
    ∧ (((analyzeBayesian o.bayesTable o.htmlToText e).acc).score =
        jsMax 0 (bayesRawScore
          ((analyzeBayesian o.bayesTable o.htmlToText e).spamProbability))
      ∧ 0 ≤ ((analyzeBayesian o.bayesTable o.htmlToText e).acc).score) := by
  refine ⟨⟨?_, ?_⟩, ⟨?_, ?_⟩, ⟨?_, ?_⟩, ⟨?_, ?_⟩, ⟨?_, ?_⟩, ⟨?_, ?_⟩⟩
  · exact (analyzeHeaders_good o.forged o.now e).1
  · exact (analyzeHeaders_good o.forged o.now e).2
  · exact analyzeContent_floor o.contentData o.htmlToText e
  · rw [analyzeContent_floor]
    exact jsMax_zero_nonneg _
  · exact (analyzeUrls_good o.parseU o.htmlToText o.findMism o.dp o.pp e).1
  · exact (analyzeUrls_good o.parseU o.htmlToText o.findMism o.dp o.pp e).2
  · exact (analyzeHtml_good o.htmlTests e.htmlBody).1
  · exact (analyzeHtml_good o.htmlTests e.htmlBody).2
  · exact (analyzePatterns_good o.execP o.entropy o.urgencyCnt o.htmlToText e).1
  · exact (analyzePatterns_good o.execP o.entropy o.urgencyCnt o.htmlToText e).2
  · exact (analyzeBayesian_floor o.bayesTable o.htmlToText e).1
  · exact (analyzeBayesian_floor o.bayesTable o.htmlToText e).2

end SpamGuard
